import Mathlib

/-!
# Window snapshot acquisition (`AppSnapshot::fetchSnapshot`)

A shallow embedding of `src/frame/item/components/appsnapshot.cpp`:
the three image sources tried by `fetchSnapshot`, the shadow trimming of
`rectRemovedShadow`, and the geometry normalization that follows a capture.

Modelling conventions.

* Everything the function asks of its surroundings (window manager helper,
  D-Bus, X server, file system, shared memory, widget geometry) is answered by
  one record `Env`, fixed for the duration of an invocation.
* Every externally visible call is appended to a trace of `Event`s, so that
  call counts and call order are statements about a list.
* C++ `int` is an `Int` wrapped to 32 bits by `toInt`.
* `qreal` is IEEE 754 binary64. A finite value is the rational number it
  denotes, and every arithmetic operation of the source is the exact operation
  followed by `round64`, rounding to nearest with ties to even at 53 bits of
  significand. The exponent range is not bounded, so overflow and underflow
  are not modelled; a division by zero has no finite result and is kept apart
  (`scaleFactor` returns `none`).
* The Qt value classes used by the function are embedded with the behaviour of
  their Qt 5 implementations, restricted to the members the function calls.
-/

namespace AppSnapshot

/-! ## Machine integers -/

/-- Conversion of an integer value to a 32 bit two's complement `int`. -/
def toInt (z : Int) : Int := (z + 2147483648) % 4294967296 - 2147483648

/-! ## Binary64 arithmetic -/

/-- Rounding to the nearest integer, ties to the even one. -/
def roundHalfEven (q : ℚ) : Int :=
  if q - (⌊q⌋ : ℚ) < 1 / 2 then ⌊q⌋
  else if 1 / 2 < q - (⌊q⌋ : ℚ) then ⌊q⌋ + 1
  else if ⌊q⌋ % 2 = 0 then ⌊q⌋ else ⌊q⌋ + 1

/-- Exponent of the last place of a 53 bit significand holding `x`. -/
def ulpExponent (x : ℚ) : Int := Int.log 2 |x| - 52

/-- Rounding of a rational number to binary64 (round to nearest, ties to even,
unbounded exponent range). -/
def round64 (x : ℚ) : ℚ := (roundHalfEven (x / 2 ^ ulpExponent x) : ℚ) * 2 ^ ulpExponent x

/-- The `double` sum `a + b`. -/
def fadd (a b : ℚ) : ℚ := round64 (a + b)

/-- The `double` difference `a - b`. -/
def fsub (a b : ℚ) : ℚ := round64 (a - b)

/-- The `double` product `a * b`. -/
def fmul (a b : ℚ) : ℚ := round64 (a * b)

/-- The `double` quotient `a / b` for `b` other than zero. -/
def fdiv (a b : ℚ) : ℚ := round64 (a / b)

/-! ## Qt value classes -/

/-- `QRect`, seen through `x()`, `y()`, `width()`, `height()`. -/
structure QRect where
  x : Int
  y : Int
  width : Int
  height : Int
deriving DecidableEq, Repr

/-- `QSizeF`. -/
structure QSizeF where
  width : ℚ
  height : ℚ
deriving DecidableEq

/-- `QRectF`: the type of the member `m_snapshotSrcRect`. -/
structure QRectF where
  x : ℚ
  y : ℚ
  width : ℚ
  height : ℚ
deriving DecidableEq

/-- The implicit conversion `QRectF(const QRect &)`. -/
def QRectF.ofQRect (r : QRect) : QRectF :=
  ⟨(r.x : ℚ), (r.y : ℚ), (r.width : ℚ), (r.height : ℚ)⟩

/-- `QRectF::isNull()`: width and height are both zero. -/
def QRectF.isNull (r : QRectF) : Bool := decide (r.width = 0 ∧ r.height = 0)

/-- `QRectF::size()`. -/
def QRectF.size (r : QRectF) : QSizeF := ⟨r.width, r.height⟩

/-- `QRectF::left()`. -/
def QRectF.left (r : QRectF) : ℚ := r.x

/-- `QRectF::top()`. -/
def QRectF.top (r : QRectF) : ℚ := r.y

/-- `QRectF::right()`. -/
def QRectF.right (r : QRectF) : ℚ := r.x + r.width

/-- `QRectF::bottom()`. -/
def QRectF.bottom (r : QRectF) : ℚ := r.y + r.height

/-- `QRectF::moveTop(pos)`. -/
def QRectF.moveTop (r : QRectF) (pos : ℚ) : QRectF := { r with y := pos }

/-- `QRectF::moveLeft(pos)`. -/
def QRectF.moveLeft (r : QRectF) (pos : ℚ) : QRectF := { r with x := pos }

/-- `QRectF::setWidth(w)`. -/
def QRectF.setWidth (r : QRectF) (w : ℚ) : QRectF := { r with width := w }

/-- `QRectF::setHeight(h)`. -/
def QRectF.setHeight (r : QRectF) (h : ℚ) : QRectF := { r with height := h }

/-- Lower end of the interval spanned from `p` by the extent `d`, which may be
negative (the normalization done inside `QRectF::contains`). -/
def spanLow (p d : ℚ) : ℚ := if d < 0 then p + d else p

/-- Upper end of the interval spanned from `p` by the extent `d`. -/
def spanHigh (p d : ℚ) : ℚ := if d < 0 then p else p + d

/-- `QRectF::contains(const QRectF &)`: both rectangles are normalized, a
rectangle that is degenerate in one direction contains nothing and is contained
in nothing. -/
def QRectF.contains (self r : QRectF) : Bool :=
  if spanLow self.x self.width = spanHigh self.x self.width then false
  else if spanLow r.x r.width = spanHigh r.x r.width then false
  else if spanLow r.x r.width < spanLow self.x self.width
      ∨ spanHigh r.x r.width > spanHigh self.x self.width then false
  else if spanLow self.y self.height = spanHigh self.y self.height then false
  else if spanLow r.y r.height = spanHigh r.y r.height then false
  else if spanLow r.y r.height < spanLow self.y self.height
      ∨ spanHigh r.y r.height > spanHigh self.y self.height then false
  else true

/-- `QSizeF::scaled(s, Qt::KeepAspectRatio)`: `rw = s.ht * wd / ht`, and the
other side `s.wd * ht / wd`, each product and quotient a `double` operation. -/
def QSizeF.scaled (self s : QSizeF) : QSizeF :=
  if self.width = 0 ∨ self.height = 0 then s
  else
    let rw := fdiv (fmul s.height self.width) self.height
    if rw ≤ s.width then ⟨rw, s.height⟩
    else ⟨s.width, fdiv (fmul s.width self.height) self.width⟩

/-- `operator*(const QSizeF &, qreal)`. -/
def QSizeF.mul (s : QSizeF) (c : ℚ) : QSizeF := ⟨fmul s.width c, fmul s.height c⟩

/-- The C++ conversion `int(d)` of a real number: truncation toward zero. -/
def truncToInt (d : ℚ) : Int := if 0 ≤ d then ⌊d⌋ else ⌈d⌉

/-- `qRound(double)` of Qt 5:
`d >= 0.0 ? int(d + 0.5) : int(d - double(int(d-1)) + 0.5) + int(d-1)`. -/
def qRound (d : ℚ) : Int :=
  if 0 ≤ d then truncToInt (fadd d (1 / 2))
  else truncToInt (fadd (fsub d ((truncToInt (fsub d 1) : Int) : ℚ)) (1 / 2))
    + truncToInt (fsub d 1)

/-- `QImage`, seen through `isNull()`, `width()`, `height()`. A null image has
no pixel data; its width and height read as zero. -/
inductive QImage where
  | null
  | image (width height : Int)
deriving DecidableEq, Repr

/-- `QImage::isNull()`. -/
def QImage.isNull : QImage → Bool
  | .null => true
  | .image _ _ => false

/-- `QImage::width()`. -/
def QImage.width : QImage → Int
  | .null => 0
  | .image w _ => w

/-- `QImage::height()`. -/
def QImage.height : QImage → Int
  | .null => 0
  | .image _ h => h

/-- `QImage::rect()`. -/
def QImage.rect (i : QImage) : QRect := ⟨0, 0, i.width, i.height⟩

/-- Construction of a `QImage` of the given size. Qt yields a null image when
the width or the height is not positive or when the remaining parameters
(buffer, stride, pixel format) are rejected; `paramsOk` stands for the latter. -/
def QImage.create (paramsOk : Bool) (width height : Int) : QImage :=
  if width ≤ 0 ∨ height ≤ 0 ∨ paramsOk = false then .null else .image width height

/-- `QImage::scaled(w, h, Qt::IgnoreAspectRatio, Qt::SmoothTransformation)`:
a null image stays null, an empty target size gives a null image, otherwise
the result has the target size. -/
def QImage.scaled (i : QImage) (w h : Int) : QImage :=
  match i with
  | .null => .null
  | .image _ _ => if w < 1 ∨ h < 1 then .null else .image w h

/-! ## Native records -/

/-- `SHMInfo::Rect`. -/
structure SHMInfo.Rect where
  x : Int
  y : Int
  width : Int
  height : Int
deriving DecidableEq, Repr

/-- `SHMInfo`: the shared memory descriptor published in a window property. -/
structure SHMInfo where
  shmid : Int
  width : Int
  height : Int
  bytesPerLine : Int
  format : Int
  rect : SHMInfo.Rect
deriving DecidableEq, Repr

/-- The fields of `XImage` read by `fetchSnapshot`. -/
structure XImage where
  width : Int
  height : Int
  bytes_per_line : Int
deriving DecidableEq, Repr

/-- What `XGetWindowProperty` hands back for `_GTK_FRAME_EXTENTS`: the return
status `r` (0 is `Success`), the actual format, and the returned buffer, which
is absent for a null pointer and otherwise lists its `n_items` items. -/
structure PropertyReply where
  r : Int
  actual_format : Int
  prop : Option (List Nat)
deriving DecidableEq, Repr

/-! ## Environment, events, state -/

/-- Answers of the surroundings during one invocation of `fetchSnapshot`. -/
structure Env where
  /-- Result of `m_wmHelper->hasComposite()`. -/
  hasComposite : Bool
  /-- The global `Utils::IS_WAYLAND_DISPLAY`. -/
  IS_WAYLAND_DISPLAY : Bool
  /-- Result of `isKWinAvailable()`. -/
  isKWinAvailable : Bool
  /-- Result of `reply.isValid()` for `screenshotForWindowExtend`. -/
  replyIsValid : Bool
  /-- Result of `QFile::exists(tmpFile)`. -/
  tmpFileExists : Bool
  /-- Size of the image decoded by `m_snapshot.load(tmpFile)`, absent when the
  load fails. -/
  tmpFileImage : Option (Int × Int)
  /-- Whether the display connection obtained by the helpers is non-null. -/
  display : Bool
  /-- Whether `XInternAtom` resolves `_DEEPIN_DXCB_SHM_INFO`. -/
  atom_prop : Bool
  /-- The buffer returned for `_DEEPIN_DXCB_SHM_INFO`. -/
  prop_return_deepin_shm : Option SHMInfo
  /-- Whether `shmat` returns something else than `-1`. -/
  shmatOk : Bool
  /-- Whether `QImage` accepts the descriptor's stride and format. -/
  shmParamsOk : Bool
  /-- Result of `XGetImage`. -/
  XGetImage : Option XImage
  /-- Whether `QImage` accepts the native image's buffer and stride. -/
  ximageParamsOk : Bool
  /-- Reply to the `_GTK_FRAME_EXTENTS` read. -/
  gtkFrameExtents : PropertyReply
  /-- Result of `rect().width()` of the widget. -/
  widgetWidth : Int
  /-- Result of `rect().height()` of the widget. -/
  widgetHeight : Int
  /-- Result of `devicePixelRatioF()`. -/
  devicePixelRatioF : ℚ

/-- Externally visible calls made by `fetchSnapshot`, in the order of the
source text. Calls that acquire something record whether they did. -/
inductive Event where
  /-- Call of `isKWinAvailable()`, the probe of the compositor service. -/
  | isKWinAvailable
  /-- The RPC `screenshotForWindowExtend`. -/
  | screenshotForWindowExtend
  /-- Call of `QFile::exists(tmpFile)`, with its result. -/
  | exists (found : Bool)
  /-- Call of `m_snapshot.load(tmpFile)`. -/
  | load
  /-- Call of `QFile::remove(tmpFile)`. -/
  | remove
  /-- Call of `getImageDSHM()`, with whether a descriptor buffer came back. -/
  | getImageDSHM (present : Bool)
  /-- Call of `shmat`, with whether the segment got attached. -/
  | shmat (attached : Bool)
  /-- Call of `getImageXlib()`, with whether a native image came back. -/
  | getImageXlib (present : Bool)
  /-- Call of `rectRemovedShadow`, which reads `_GTK_FRAME_EXTENTS`. -/
  | rectRemovedShadow
  /-- The signal `requestCheckWindow()`. -/
  | requestCheckWindow
  /-- Call of `shmdt(image_data)`. -/
  | shmdt
  /-- Call of `XDestroyImage(ximage)`. -/
  | XDestroyImage
  /-- Call of `XFree(info)`. -/
  | XFree
  /-- Call of `update()`, which schedules the repaint with the new members. -/
  | update
deriving DecidableEq, Repr

/-- The members of `AppSnapshot` written by `fetchSnapshot`. -/
structure Widget where
  m_snapshot : QImage
  m_snapshotSrcRect : QRectF
deriving DecidableEq

/-- Members, locals of `fetchSnapshot`, and the calls made so far. -/
structure Frame where
  m_snapshot : QImage
  m_snapshotSrcRect : QRectF
  qimage : QImage
  info : Option SHMInfo
  image_data : Bool
  ximage : Option XImage
  trace : List Event

/-- The frame on entry to the `do` block: the locals are null. -/
def Frame.enter (w : Widget) : Frame :=
  ⟨w.m_snapshot, w.m_snapshotSrcRect, .null, none, false, none, []⟩

/-- Record a call. -/
def Frame.log (f : Frame) (e : Event) : Frame := { f with trace := f.trace ++ [e] }

/-- The members held by a frame. -/
def Frame.widget (f : Frame) : Widget := ⟨f.m_snapshot, f.m_snapshotSrcRect⟩

/-- How control leaves the `do { ... } while(false)` block: by `break` or by
reaching its end, or by the `return` inside it. -/
inductive Exit where
  | fallThrough (f : Frame)
  | returned (f : Frame)

/-- The frame carried by an exit. -/
def Exit.frame : Exit → Frame
  | .fallThrough f => f
  | .returned f => f

/-- What an invocation leaves behind: the members and the calls it made. -/
structure Outcome where
  widget : Widget
  trace : List Event
  /-- Line 270 divided by zero: the scale factor is no finite number, and the
  members written from it are not followed; `widget` then holds the members as
  they were before that line, while `trace` still lists the calls of lines 278
  to 282, which do not depend on the scale factor. -/
  dividedByZero : Bool

/-! ## The helpers of `fetchSnapshot` -/

/-- `AppSnapshot::getImageDSHM`: no display or an unresolved atom give a null
pointer, otherwise the buffer returned for the property. -/
def getImageDSHM (env : Env) : Option SHMInfo :=
  if env.display = false then none
  else if env.atom_prop = false then none
  else env.prop_return_deepin_shm

/-- `AppSnapshot::getImageXlib`: no display gives a null pointer, otherwise the
result of `XGetImage`. -/
def getImageXlib (env : Env) : Option XImage :=
  if env.display = false then none else env.XGetImage

/-- `AppSnapshot::rectRemovedShadow`. The items of the buffer are
`unsigned long`; `left`, `right`, `top`, `bottom` are their conversions to
`int`, and the two subtractions are `int` subtractions. -/
def rectRemovedShadow (display : Bool) (qimage : QImage) (reply : PropertyReply) : QRect :=
  if display = false then ⟨0, 0, 0, 0⟩
  else
    match reply.prop with
    | some extents =>
      if reply.r = 0 ∧ extents.length = 4 ∧ reply.actual_format = 32 then
        let left := toInt (extents.getD 0 0)
        let right := toInt (extents.getD 1 0)
        let top := toInt (extents.getD 2 0)
        let bottom := toInt (extents.getD 3 0)
        let width := qimage.width
        let height := qimage.height
        ⟨left, top, toInt (toInt (width - left) - right), toInt (toInt (height - top) - bottom)⟩
      else ⟨0, 0, qimage.width, qimage.height⟩
    | none => ⟨0, 0, qimage.width, qimage.height⟩

/-! ## The three sources (the `do { ... } while(false)` block) -/

/-- Lines 238 to 258: the direct image transfer. -/
def directSource (env : Env) (f : Frame) : Exit :=
  if env.IS_WAYLAND_DISPLAY = false ∧ (f.image_data = false ∨ f.qimage.isNull = true) then
    let ximage := getImageXlib env
    let f1 := { f.log (.getImageXlib ximage.isSome) with ximage := ximage }
    match ximage with
    | none => .returned (f1.log .requestCheckWindow)
    | some xi =>
      let qimage := QImage.create env.ximageParamsOk xi.width xi.height
      let f2 := { f1 with qimage := qimage }
      if qimage.isNull = false then
        .fallThrough { f2.log .rectRemovedShadow with
          m_snapshot := qimage
          m_snapshotSrcRect :=
            QRectF.ofQRect (rectRemovedShadow env.display qimage env.gtkFrameExtents) }
      else .fallThrough f2
  else .fallThrough f

/-- Lines 224 to 236: the shared memory source, followed by the direct one. -/
def sharedMemorySource (env : Env) (f : Frame) : Exit :=
  let info := getImageDSHM env
  let f1 := { f.log (.getImageDSHM info.isSome) with info := info }
  match info with
  | some i =>
    let f2 := { f1.log (.shmat env.shmatOk) with image_data := env.shmatOk }
    if env.shmatOk = true then
      .fallThrough { f2 with
        m_snapshot := QImage.create env.shmParamsOk (toInt i.width) (toInt i.height)
        m_snapshotSrcRect :=
          QRectF.ofQRect ⟨toInt i.rect.x, toInt i.rect.y, toInt i.rect.width, toInt i.rect.height⟩ }
    else directSource env { f2 with image_data := false }
  | none => directSource env f1

/-- The image left in `m_snapshot` by `load`: a failed load leaves a null image. -/
def loadImage (file : Option (Int × Int)) : QImage :=
  match file with
  | some (w, h) => QImage.create true w h
  | none => .null

/-- Lines 197 to 222: the compositor source, followed by the other two. -/
def compositorSource (env : Env) (f : Frame) : Exit :=
  let f1 := f.log .isKWinAvailable
  if env.isKWinAvailable = true then
    let f2 := f1.log .screenshotForWindowExtend
    if env.replyIsValid = true then
      let f3 := f2.log (.exists env.tmpFileExists)
      if env.tmpFileExists = true then
        let snapshot := loadImage env.tmpFileImage
        .fallThrough { (f3.log .load).log .remove with
          m_snapshot := snapshot
          m_snapshotSrcRect := QRectF.ofQRect snapshot.rect }
      else sharedMemorySource env f3
    else sharedMemorySource env f2
  else sharedMemorySource env f1

/-! ## Geometry normalization (lines 267 to 276) -/

/-- The display budget: `rect().marginsRemoved(QMargins(8, 8, 8, 8)).size()`. -/
def displayBudget (env : Env) : QSizeF :=
  ⟨((env.widgetWidth - 16 : Int) : ℚ), ((env.widgetHeight - 16 : Int) : ℚ)⟩

/-- Line 269: the target size. -/
def targetSize (srcRect : QRectF) (budget : QSizeF) (dpr : ℚ) : QSizeF :=
  srcRect.size.scaled (budget.mul dpr)

/-- Line 270: the scale factor `qreal(size.width()) / m_snapshotSrcRect.width()`.
A division by zero has no finite result. -/
def scaleFactor (srcRect : QRectF) (budget : QSizeF) (dpr : ℚ) : Option ℚ :=
  if srcRect.width = 0 then none
  else some (fdiv (targetSize srcRect budget dpr).width srcRect.width)

/-- Lines 271 and 272: the rescaled bitmap. -/
def normalizeSnapshot (snapshot : QImage) (scale : ℚ) : QImage :=
  snapshot.scaled (qRound (fmul (snapshot.width : ℚ) scale))
    (qRound (fmul (snapshot.height : ℚ) scale))

/-- Lines 273 to 276: the rescaled source rectangle. -/
def normalizeSrcRect (srcRect : QRectF) (size : QSizeF) (scale : ℚ) : QRectF :=
  let r1 := srcRect.moveTop (fadd (fmul srcRect.top scale) (1 / 2))
  let r2 := r1.moveLeft (fadd (fmul r1.left scale) (1 / 2))
  let r3 := r2.setWidth (fsub size.width (1 / 2))
  r3.setHeight (fsub size.height (1 / 2))

/-- Lines 278 to 280: the releases at the end of the function. -/
def releases (f : Frame) : List Event :=
  (if f.image_data = true then [Event.shmdt] else [])
    ++ (if f.ximage.isSome = true then [Event.XDestroyImage] else [])
    ++ (if f.info.isSome = true then [Event.XFree] else [])

/-! ## `fetchSnapshot` -/

/-- Lines 261 to 283: what follows the `do` block. The `return` inside the
block leaves the function at once; otherwise the null check either returns or
lets the normalization, the releases and `update()` run. -/
def afterSources (env : Env) : Exit → Outcome
  | .returned f => ⟨f.widget, f.trace, false⟩
  | .fallThrough f =>
    if f.m_snapshot.isNull = true ∨ f.m_snapshotSrcRect.isNull = true then
      ⟨f.widget, f.trace, false⟩
    else
      match scaleFactor f.m_snapshotSrcRect (displayBudget env) env.devicePixelRatioF with
      | none => ⟨f.widget, f.trace ++ releases f ++ [Event.update], true⟩
      | some scale =>
        ⟨⟨normalizeSnapshot f.m_snapshot scale,
            normalizeSrcRect f.m_snapshotSrcRect
              (targetSize f.m_snapshotSrcRect (displayBudget env) env.devicePixelRatioF)
              scale⟩,
          f.trace ++ releases f ++ [Event.update], false⟩

/-- `AppSnapshot::fetchSnapshot`. -/
def fetchSnapshot (env : Env) (w : Widget) : Outcome :=
  if env.hasComposite = false then ⟨w, [], false⟩
  else afterSources env (compositorSource env (Frame.enter w))

/-! ## Reading a trace -/

/-- The three image sources, in the order of the source text. -/
inductive Source where
  | compositor
  | sharedMemory
  | direct
deriving DecidableEq, Repr

/-- The source a call opens, for the first call of each source. -/
def Event.opens : Event → Option Source
  | .isKWinAvailable => some .compositor
  | .getImageDSHM _ => some .sharedMemory
  | .getImageXlib _ => some .direct
  | _ => none

/-- The sources attempted by a trace, in the order of their attempts. -/
def attempts (t : List Event) : List Source := t.filterMap Event.opens

/-- Calls that belong to the shared memory source: the descriptor read, the
attach and the detach. -/
def Event.usesSharedMemory : Event → Bool
  | .getImageDSHM _ => true
  | .shmat _ => true
  | .shmdt => true
  | _ => false

/-- Calls that belong to the direct source: the image transfer, the shadow
extents read and the release of the native image. -/
def Event.usesDirect : Event → Bool
  | .getImageXlib _ => true
  | .rectRemovedShadow => true
  | .XDestroyImage => true
  | _ => false

/-- Calls that belong to the compositor source. -/
def Event.usesCompositor : Event → Bool
  | .isKWinAvailable => true
  | .screenshotForWindowExtend => true
  | .exists _ => true
  | .load => true
  | .remove => true
  | _ => false

/-! ## The paths through the `do` block -/

/-- The calls of the compositor source when it does not end in `break`. -/
def compositorCalls (env : Env) : List Event :=
  if env.isKWinAvailable = true then
    if env.replyIsValid = true then
      [.isKWinAvailable, .screenshotForWindowExtend, .exists env.tmpFileExists]
    else [.isKWinAvailable, .screenshotForWindowExtend]
  else [.isKWinAvailable]

/-- The calls of the shared memory source. -/
def sharedMemoryCalls (env : Env) : List Event :=
  match getImageDSHM env with
  | some _ => [.getImageDSHM true, .shmat env.shmatOk]
  | none => [.getImageDSHM false]

/-- The compositor source ends in `break`. -/
def compositorBreaks (env : Env) : Prop :=
  env.isKWinAvailable = true ∧ env.replyIsValid = true ∧ env.tmpFileExists = true

instance (env : Env) : Decidable (compositorBreaks env) := by
  unfold compositorBreaks; infer_instance

/-- The shared memory source ends in `break`. -/
def sharedMemoryBreaks (env : Env) : Prop :=
  (getImageDSHM env).isSome = true ∧ env.shmatOk = true

instance (env : Env) : Decidable (sharedMemoryBreaks env) := by
  unfold sharedMemoryBreaks; infer_instance

/-! ## What a source yields -/

/-- The compositor source yields a bitmap: it ends in `break` with a loaded
image. -/
def compositorYields (env : Env) : Bool :=
  decide (compositorBreaks env) && !(loadImage env.tmpFileImage).isNull

/-- The shared memory source yields a bitmap: a descriptor is present, the
attach succeeds and the wrapped image is not null. -/
def sharedMemoryYields (env : Env) : Bool :=
  match getImageDSHM env with
  | some i =>
    env.shmatOk && !(QImage.create env.shmParamsOk (toInt i.width) (toInt i.height)).isNull
  | none => false

/-- The direct source yields a bitmap: it is not skipped, the transfer returns
a native image and the wrapped image is not null. -/
def directYields (env : Env) : Bool :=
  !env.IS_WAYLAND_DISPLAY &&
    match getImageXlib env with
    | some xi => !(QImage.create env.ximageParamsOk xi.width xi.height).isNull
    | none => false

/-- Number of emissions of `requestCheckWindow()` in a trace. -/
def signals (t : List Event) : Nat := t.count .requestCheckWindow

/-! ## Sample sessions -/

/-- A composited X11 session in which no source has anything to offer: no
compositor service, no descriptor property, no image from the X server. -/
def bareEnv : Env where
  hasComposite := true
  IS_WAYLAND_DISPLAY := false
  isKWinAvailable := false
  replyIsValid := false
  tmpFileExists := false
  tmpFileImage := none
  display := true
  atom_prop := false
  prop_return_deepin_shm := none
  shmatOk := false
  shmParamsOk := true
  XGetImage := none
  ximageParamsOk := true
  gtkFrameExtents := ⟨1, 0, none⟩
  widgetWidth := 116
  widgetHeight := 116
  devicePixelRatioF := 1

/-- A descriptor of a 200 x 160 buffer whose content rectangle is
(4, 4, 100, 80). -/
def sampleInfo : SHMInfo := ⟨7, 200, 160, 800, 4, ⟨4, 4, 100, 80⟩⟩

/-- A session in which all three sources would deliver. -/
def richEnv : Env :=
  { bareEnv with
    isKWinAvailable := true
    replyIsValid := true
    tmpFileExists := true
    tmpFileImage := some (200, 100)
    atom_prop := true
    prop_return_deepin_shm := some sampleInfo
    shmatOk := true
    XGetImage := some ⟨300, 200, 1200⟩ }

/-- A session without compositor service in which the descriptor and the
direct transfer would both deliver. -/
def sharedMemoryEnv : Env := { richEnv with isKWinAvailable := false }

/-- A session in which only the direct transfer delivers. -/
def directEnv : Env := { bareEnv with XGetImage := some ⟨300, 200, 1200⟩ }

/-- The bare session on a Wayland display. -/
def waylandEnv : Env := { bareEnv with IS_WAYLAND_DISPLAY := true }

/-- The compositor reports a file that exists but cannot be decoded, while the
other two sources would deliver. -/
def loadFailEnv : Env := { richEnv with tmpFileImage := none }

/-- The window is minimized: its descriptor names a segment that can no longer
be attached and the X server refuses the image transfer. -/
def staleDescriptorEnv : Env :=
  { bareEnv with
    atom_prop := true
    prop_return_deepin_shm := some sampleInfo }

/-- A freshly mapped window: its descriptor can be attached but still names an
empty content rectangle. -/
def emptyRectEnv : Env :=
  { sharedMemoryEnv with
    prop_return_deepin_shm := some ⟨7, 200, 160, 800, 4, ⟨0, 0, 0, 0⟩⟩ }

/-- The members and locals at the end of the `do` block, before the null check
and the geometry normalization. -/
def captured (env : Env) (w : Widget) : Frame := (compositorSource env (Frame.enter w)).frame

/-- Whether the bounds of `m_snapshot` contain `m_snapshotSrcRect`. -/
def Frame.srcRectInBounds (f : Frame) : Bool :=
  (QRectF.ofQRect f.m_snapshot.rect).contains f.m_snapshotSrcRect

/-- The descriptor of a 100 x 100 buffer names the content rectangle
(50, 50, 100, 100), which reaches beyond the buffer. -/
def overhangEnv : Env :=
  { sharedMemoryEnv with
    prop_return_deepin_shm := some ⟨7, 100, 100, 400, 4, ⟨50, 50, 100, 100⟩⟩ }

/-- The direct transfer delivers a 300 x 200 image of a window whose shadow
extents are 400 on every side. -/
def oversizedShadowEnv : Env :=
  { directEnv with gtkFrameExtents := ⟨0, 32, some [400, 400, 400, 400]⟩ }

/-- The direct transfer delivers a 300 x 200 image of a window whose shadow
extents are (10, 10, 5, 15). -/
def shadowEnv : Env :=
  { directEnv with gtkFrameExtents := ⟨0, 32, some [10, 10, 5, 15]⟩ }

/-- Whether an invocation passes the null check of line 262: the `do` block
was not left by `return`, and neither `m_snapshot` nor `m_snapshotSrcRect` is
null. These are the invocations that reach the geometry normalization. -/
def captureSucceeds (env : Env) (w : Widget) : Bool :=
  match compositorSource env (Frame.enter w) with
  | .fallThrough f => !f.m_snapshot.isNull && !f.m_snapshotSrcRect.isNull
  | .returned _ => false

/-- Whether the bounds of a widget's `m_snapshot` contain its
`m_snapshotSrcRect`. -/
def Widget.srcRectInBounds (w : Widget) : Bool :=
  (QRectF.ofQRect w.m_snapshot.rect).contains w.m_snapshotSrcRect

/-- A widget that holds no snapshot yet. -/
def emptyWidget : Widget := ⟨.null, ⟨0, 0, 0, 0⟩⟩

/-- A widget that holds the pair published by an earlier capture of a
200 x 100 image in a 100 x 100 budget. -/
def storedWidget : Widget := ⟨.image 100 50, ⟨1 / 2, 1 / 2, 199 / 2, 99 / 2⟩⟩

/-- The descriptor of a 200 x 160 buffer names a content rectangle of width 0
and height 80. -/
def zeroWidthEnv : Env :=
  { sharedMemoryEnv with
    prop_return_deepin_shm := some ⟨7, 200, 160, 800, 4, ⟨0, 0, 0, 80⟩⟩ }

/-- The direct transfer delivers a 300 x 200 image of a window whose left and
right shadow extents add up to the image width. -/
def halfShadowEnv : Env :=
  { directEnv with gtkFrameExtents := ⟨0, 32, some [150, 150, 0, 0]⟩ }

/-! # Theorems -/

/-! ## Path lemmas -/

theorem compositorSource_break (env : Env) (f : Frame) (h : compositorBreaks env) :
    compositorSource env f = .fallThrough
      { f with
        m_snapshot := loadImage env.tmpFileImage
        m_snapshotSrcRect := QRectF.ofQRect (loadImage env.tmpFileImage).rect
        trace := f.trace ++ [.isKWinAvailable, .screenshotForWindowExtend, .exists true,
          .load, .remove] } := by
  obtain ⟨h1, h2, h3⟩ := h
  simp [compositorSource, h1, h2, h3, Frame.log]

theorem compositorSource_miss (env : Env) (f : Frame) (h : ¬ compositorBreaks env) :
    compositorSource env f
      = sharedMemorySource env { f with trace := f.trace ++ compositorCalls env } := by
  unfold compositorBreaks at h
  cases h1 : env.isKWinAvailable <;> cases h2 : env.replyIsValid <;>
    cases h3 : env.tmpFileExists <;>
    simp_all [compositorSource, compositorCalls, Frame.log]

theorem sharedMemorySource_break (env : Env) (f : Frame) (i : SHMInfo)
    (hi : getImageDSHM env = some i) (hs : env.shmatOk = true) :
    sharedMemorySource env f = .fallThrough
      { f with
        m_snapshot := QImage.create env.shmParamsOk (toInt i.width) (toInt i.height)
        m_snapshotSrcRect := QRectF.ofQRect
          ⟨toInt i.rect.x, toInt i.rect.y, toInt i.rect.width, toInt i.rect.height⟩
        info := some i
        image_data := true
        trace := f.trace ++ sharedMemoryCalls env } := by
  simp [sharedMemorySource, sharedMemoryCalls, hi, hs, Frame.log]

theorem sharedMemorySource_miss (env : Env) (f : Frame) (hd : f.image_data = false)
    (h : ¬ sharedMemoryBreaks env) :
    sharedMemorySource env f = directSource env
      { f with info := getImageDSHM env, trace := f.trace ++ sharedMemoryCalls env } := by
  unfold sharedMemoryBreaks at h
  cases hi : getImageDSHM env with
  | none => simp [sharedMemorySource, sharedMemoryCalls, hi, Frame.log]
  | some i =>
    have hs : env.shmatOk = false := by simpa [hi] using h
    simp [sharedMemorySource, sharedMemoryCalls, hi, hs, Frame.log, hd]

theorem directSource_skipped (env : Env) (f : Frame) (hw : env.IS_WAYLAND_DISPLAY = true) :
    directSource env f = .fallThrough f := by
  simp [directSource, hw]

theorem directSource_failed (env : Env) (f : Frame) (hw : env.IS_WAYLAND_DISPLAY = false)
    (hd : f.image_data = false) (hx : getImageXlib env = none) :
    directSource env f = .returned
      { f with
        ximage := none
        trace := f.trace ++ [.getImageXlib false, .requestCheckWindow] } := by
  simp [directSource, hw, hd, hx, Frame.log]

theorem directSource_image (env : Env) (f : Frame) (xi : XImage)
    (hw : env.IS_WAYLAND_DISPLAY = false) (hd : f.image_data = false)
    (hx : getImageXlib env = some xi)
    (hq : (QImage.create env.ximageParamsOk xi.width xi.height).isNull = false) :
    directSource env f = .fallThrough
      { f with
        m_snapshot := QImage.create env.ximageParamsOk xi.width xi.height
        m_snapshotSrcRect := QRectF.ofQRect (rectRemovedShadow env.display
          (QImage.create env.ximageParamsOk xi.width xi.height) env.gtkFrameExtents)
        qimage := QImage.create env.ximageParamsOk xi.width xi.height
        ximage := some xi
        trace := f.trace ++ [.getImageXlib true, .rectRemovedShadow] } := by
  simp [directSource, hw, hd, hx, hq, Frame.log]

theorem directSource_null (env : Env) (f : Frame) (xi : XImage)
    (hw : env.IS_WAYLAND_DISPLAY = false) (hd : f.image_data = false)
    (hx : getImageXlib env = some xi)
    (hq : (QImage.create env.ximageParamsOk xi.width xi.height).isNull = true) :
    directSource env f = .fallThrough
      { f with
        qimage := QImage.create env.ximageParamsOk xi.width xi.height
        ximage := some xi
        trace := f.trace ++ [.getImageXlib true] } := by
  simp [directSource, hw, hd, hx, hq, Frame.log]

/-- The six ways through the `do` block, each with the frame it leaves. -/
theorem sources_paths (env : Env) (w : Widget) :
    (compositorBreaks env ∧
      compositorSource env (Frame.enter w) = .fallThrough
        ⟨loadImage env.tmpFileImage, QRectF.ofQRect (loadImage env.tmpFileImage).rect,
          .null, none, false, none,
          [.isKWinAvailable, .screenshotForWindowExtend, .exists true, .load, .remove]⟩)
    ∨ (∃ i, ¬ compositorBreaks env ∧ getImageDSHM env = some i ∧ env.shmatOk = true ∧
      compositorSource env (Frame.enter w) = .fallThrough
        ⟨QImage.create env.shmParamsOk (toInt i.width) (toInt i.height),
          QRectF.ofQRect
            ⟨toInt i.rect.x, toInt i.rect.y, toInt i.rect.width, toInt i.rect.height⟩,
          .null, some i, true, none, compositorCalls env ++ sharedMemoryCalls env⟩)
    ∨ (¬ compositorBreaks env ∧ ¬ sharedMemoryBreaks env ∧ env.IS_WAYLAND_DISPLAY = true ∧
      compositorSource env (Frame.enter w) = .fallThrough
        ⟨w.m_snapshot, w.m_snapshotSrcRect, .null, getImageDSHM env, false, none,
          compositorCalls env ++ sharedMemoryCalls env⟩)
    ∨ (¬ compositorBreaks env ∧ ¬ sharedMemoryBreaks env ∧ env.IS_WAYLAND_DISPLAY = false ∧
      getImageXlib env = none ∧
      compositorSource env (Frame.enter w) = .returned
        ⟨w.m_snapshot, w.m_snapshotSrcRect, .null, getImageDSHM env, false, none,
          compositorCalls env ++ sharedMemoryCalls env
            ++ [.getImageXlib false, .requestCheckWindow]⟩)
    ∨ (∃ xi, ¬ compositorBreaks env ∧ ¬ sharedMemoryBreaks env ∧
      env.IS_WAYLAND_DISPLAY = false ∧ getImageXlib env = some xi ∧
      (QImage.create env.ximageParamsOk xi.width xi.height).isNull = false ∧
      compositorSource env (Frame.enter w) = .fallThrough
        ⟨QImage.create env.ximageParamsOk xi.width xi.height,
          QRectF.ofQRect (rectRemovedShadow env.display
            (QImage.create env.ximageParamsOk xi.width xi.height) env.gtkFrameExtents),
          QImage.create env.ximageParamsOk xi.width xi.height, getImageDSHM env, false, some xi,
          compositorCalls env ++ sharedMemoryCalls env
            ++ [.getImageXlib true, .rectRemovedShadow]⟩)
    ∨ (∃ xi, ¬ compositorBreaks env ∧ ¬ sharedMemoryBreaks env ∧
      env.IS_WAYLAND_DISPLAY = false ∧ getImageXlib env = some xi ∧
      (QImage.create env.ximageParamsOk xi.width xi.height).isNull = true ∧
      compositorSource env (Frame.enter w) = .fallThrough
        ⟨w.m_snapshot, w.m_snapshotSrcRect,
          QImage.create env.ximageParamsOk xi.width xi.height, getImageDSHM env, false, some xi,
          compositorCalls env ++ sharedMemoryCalls env ++ [.getImageXlib true]⟩) := by
  by_cases hc : compositorBreaks env
  · left
    exact ⟨hc, by rw [compositorSource_break env _ hc]; simp [Frame.enter]⟩
  · right
    rw [compositorSource_miss env _ hc]
    by_cases hs : sharedMemoryBreaks env
    · left
      obtain ⟨h1, h2⟩ := hs
      obtain ⟨i, hi⟩ := Option.isSome_iff_exists.mp h1
      exact ⟨i, hc, hi, h2, by rw [sharedMemorySource_break env _ i hi h2]; simp [Frame.enter]⟩
    · right
      rw [sharedMemorySource_miss env _ rfl hs]
      cases hw : env.IS_WAYLAND_DISPLAY with
      | true =>
        left
        exact ⟨hc, hs, rfl, by rw [directSource_skipped env _ hw]; simp [Frame.enter]⟩
      | false =>
        right
        cases hx : getImageXlib env with
        | none =>
          left
          exact ⟨hc, hs, rfl, rfl, by
            rw [directSource_failed env _ hw rfl hx]; simp [Frame.enter]⟩
        | some xi =>
          right
          cases hq : (QImage.create env.ximageParamsOk xi.width xi.height).isNull with
          | false =>
            left
            exact ⟨xi, hc, hs, rfl, rfl, hq, by
              rw [directSource_image env _ xi hw rfl hx hq]; simp [Frame.enter]⟩
          | true =>
            right
            exact ⟨xi, hc, hs, rfl, rfl, hq, by
              rw [directSource_null env _ xi hw rfl hx hq]; simp [Frame.enter]⟩

/-! ## Reading the trace of each part -/

theorem attempts_compositorCalls (env : Env) :
    attempts (compositorCalls env) = [.compositor] := by
  unfold compositorCalls
  split_ifs <;> rfl

theorem attempts_sharedMemoryCalls (env : Env) :
    attempts (sharedMemoryCalls env) = [.sharedMemory] := by
  unfold sharedMemoryCalls
  split <;> rfl

theorem attempts_append (s t : List Event) : attempts (s ++ t) = attempts s ++ attempts t := by
  simp [attempts]

theorem attempts_releases (f : Frame) : attempts (releases f) = [] := by
  unfold releases
  split_ifs <;> rfl

theorem attempts_afterSources (env : Env) (e : Exit) :
    attempts (afterSources env e).trace = attempts e.frame.trace := by
  cases e with
  | returned f => rfl
  | fallThrough f =>
    simp only [afterSources, Exit.frame]
    have h : attempts (f.trace ++ releases f ++ [Event.update]) = attempts f.trace := by
      rw [attempts_append, attempts_append, attempts_releases]
      simp [attempts, Event.opens]
    split
    · rfl
    · split
      · exact h
      · exact h

theorem mem_compositorCalls (env : Env) (e : Event) (h : e ∈ compositorCalls env) :
    e.usesCompositor = true := by
  unfold compositorCalls at h
  split_ifs at h <;> simp at h <;> rcases h with h | h | h <;> (try subst h) <;> rfl

theorem mem_sharedMemoryCalls (env : Env) (e : Event) (h : e ∈ sharedMemoryCalls env) :
    e = .getImageDSHM (getImageDSHM env).isSome ∨ e = .shmat env.shmatOk := by
  unfold sharedMemoryCalls at h
  split at h <;> simp_all

theorem mem_releases (f : Frame) (e : Event) (h : e ∈ releases f) :
    (e = .shmdt ∧ f.image_data = true) ∨ (e = .XDestroyImage ∧ f.ximage.isSome = true)
      ∨ (e = .XFree ∧ f.info.isSome = true) := by
  unfold releases at h
  simp only [List.mem_append] at h
  rcases h with (h | h) | h
  · split_ifs at h with hc <;> simp_all
  · split_ifs at h with hc <;> simp_all
  · split_ifs at h with hc <;> simp_all

theorem mem_afterSources (env : Env) (x : Exit) (e : Event)
    (h : e ∈ (afterSources env x).trace) :
    e ∈ x.frame.trace ∨ e ∈ releases x.frame ∨ e = .update := by
  cases x with
  | returned f => left; exact h
  | fallThrough f =>
    simp only [afterSources, Exit.frame] at h ⊢
    split at h
    · left; exact h
    · split at h
      · simpa [or_assoc] using h
      · simpa [or_assoc] using h

theorem usesCompositor_exclusive (e : Event) (h : e.usesCompositor = true) :
    e.usesSharedMemory = false ∧ e.usesDirect = false := by
  cases e <;> simp_all [Event.usesCompositor, Event.usesSharedMemory, Event.usesDirect]

/-- After a `break` of the compositor source only compositor calls and
`update()` are made. -/
theorem trace_of_compositor_break (env : Env) (w : Widget) (hc : env.hasComposite = true)
    (hb : compositorBreaks env) (e : Event) (he : e ∈ (fetchSnapshot env w).trace) :
    e.usesCompositor = true ∨ e = .update := by
  simp only [fetchSnapshot, hc, Bool.true_eq_false, if_false] at he
  rw [compositorSource_break env _ hb] at he
  rcases mem_afterSources env _ e he with h | h | h
  · left
    simp [Exit.frame, Frame.enter] at h
    rcases h with h | h | h | h | h <;> subst h <;> rfl
  · rcases mem_releases _ e h with h | h | h <;> simp [Exit.frame, Frame.enter] at h
  · right; exact h

/-- After a `break` of the shared memory source no call of the direct source is
made. -/
theorem trace_of_sharedMemory_break (env : Env) (w : Widget) (hc : env.hasComposite = true)
    (hn : ¬ compositorBreaks env) (hb : sharedMemoryBreaks env) (e : Event)
    (he : e ∈ (fetchSnapshot env w).trace) : e.usesDirect = false := by
  obtain ⟨h1, h2⟩ := hb
  obtain ⟨i, hi⟩ := Option.isSome_iff_exists.mp h1
  simp only [fetchSnapshot, hc, Bool.true_eq_false, if_false] at he
  rw [compositorSource_miss env _ hn, sharedMemorySource_break env _ i hi h2] at he
  rcases mem_afterSources env _ e he with h | h | h
  · simp only [Exit.frame, Frame.enter, List.nil_append, List.mem_append] at h
    rcases h with h | h
    · exact (usesCompositor_exclusive e (mem_compositorCalls env e h)).2
    · rcases mem_sharedMemoryCalls env e h with h | h <;> subst h <;> rfl
  · rcases mem_releases _ e h with h | h | h
    · rw [h.1]; rfl
    · simp [Exit.frame, Frame.enter] at h
    · rw [h.1]; rfl
  · subst h; rfl

/-- The sources attempted by an invocation with compositing enabled. -/
theorem attempts_fetchSnapshot (env : Env) (w : Widget) (hc : env.hasComposite = true) :
    attempts (fetchSnapshot env w).trace =
      if compositorBreaks env then [.compositor]
      else if sharedMemoryBreaks env ∨ env.IS_WAYLAND_DISPLAY = true then
        [.compositor, .sharedMemory]
      else [.compositor, .sharedMemory, .direct] := by
  simp only [fetchSnapshot, hc, Bool.true_eq_false, if_false]
  rw [attempts_afterSources]
  rcases sources_paths env w with ⟨hb, h⟩ | ⟨i, hn, hi, hs, h⟩ | ⟨hn, hm, hw, h⟩ |
    ⟨hn, hm, hw, hx, h⟩ | ⟨xi, hn, hm, hw, hx, hq, h⟩ | ⟨xi, hn, hm, hw, hx, hq, h⟩
  · rw [h, if_pos hb]; rfl
  · have hm : sharedMemoryBreaks env := ⟨by simp [hi], hs⟩
    rw [h, if_neg hn, if_pos (Or.inl hm)]
    simp [Exit.frame, attempts_append, attempts_compositorCalls, attempts_sharedMemoryCalls]
  · rw [h, if_neg hn, if_pos (Or.inr hw)]
    simp [Exit.frame, attempts_append, attempts_compositorCalls, attempts_sharedMemoryCalls]
  · rw [h, if_neg hn, if_neg (by simp [hm, hw])]
    simp only [Exit.frame, attempts_append, attempts_compositorCalls,
      attempts_sharedMemoryCalls]
    rfl
  · rw [h, if_neg hn, if_neg (by simp [hm, hw])]
    simp only [Exit.frame, attempts_append, attempts_compositorCalls,
      attempts_sharedMemoryCalls]
    rfl
  · rw [h, if_neg hn, if_neg (by simp [hm, hw])]
    simp only [Exit.frame, attempts_append, attempts_compositorCalls,
      attempts_sharedMemoryCalls]
    rfl

/-! ## Order of the sources -/

/-- C1. With compositing enabled the sources are attempted in the order
compositor, shared memory, direct, each at most once and none before its
predecessors. When the compositor service is available, its reply is valid and
the reported file exists, no call of the shared memory source and no call of
the direct source is made. When a descriptor is present and the attach
succeeds, no call of the direct source is made, and if the compositor source
did not end in `break` the attempts are exactly compositor, shared memory. -/
theorem fetchSnapshot_first_success_wins (env : Env) (w : Widget)
    (hc : env.hasComposite = true) :
    (attempts (fetchSnapshot env w).trace = [.compositor]
      ∨ attempts (fetchSnapshot env w).trace = [.compositor, .sharedMemory]
      ∨ attempts (fetchSnapshot env w).trace = [.compositor, .sharedMemory, .direct])
    ∧ (compositorBreaks env →
        attempts (fetchSnapshot env w).trace = [.compositor]
        ∧ ∀ e ∈ (fetchSnapshot env w).trace,
            e.usesSharedMemory = false ∧ e.usesDirect = false)
    ∧ (sharedMemoryBreaks env →
        (∀ e ∈ (fetchSnapshot env w).trace, e.usesDirect = false)
        ∧ (¬ compositorBreaks env →
            attempts (fetchSnapshot env w).trace = [.compositor, .sharedMemory])) := by
  have ha := attempts_fetchSnapshot env w hc
  refine ⟨?_, ?_, ?_⟩
  · rw [ha]
    split_ifs <;> simp
  · intro hb
    refine ⟨by rw [ha, if_pos hb], ?_⟩
    intro e he
    rcases trace_of_compositor_break env w hc hb e he with h | h
    · exact usesCompositor_exclusive e h
    · subst h; exact ⟨rfl, rfl⟩
  · intro hb
    refine ⟨?_, fun hn => by rw [ha, if_neg hn, if_pos (Or.inl hb)]⟩
    intro e he
    by_cases hn : compositorBreaks env
    · rcases trace_of_compositor_break env w hc hn e he with h | h
      · exact (usesCompositor_exclusive e h).2
      · subst h; rfl
    · exact trace_of_sharedMemory_break env w hc hn hb e he

theorem fetchSnapshot_first_success_wins_witness :
    attempts (fetchSnapshot richEnv emptyWidget).trace = [.compositor]
    ∧ attempts (fetchSnapshot sharedMemoryEnv emptyWidget).trace
        = [.compositor, .sharedMemory] :=
  ⟨((fetchSnapshot_first_success_wins richEnv emptyWidget rfl).2.1 ⟨rfl, rfl, rfl⟩).1,
    ((fetchSnapshot_first_success_wins sharedMemoryEnv emptyWidget rfl).2.2
      (by decide)).2 (by decide)⟩

/-! ## Compositing disabled -/

/-- C2. With compositing disabled `fetchSnapshot` makes no call at all (no
compositor probe or RPC, no property read, no attach, no image transfer, no
signal) and leaves `m_snapshot` and `m_snapshotSrcRect` as they were. -/
theorem fetchSnapshot_without_composite (env : Env) (w : Widget)
    (hc : env.hasComposite = false) :
    (fetchSnapshot env w).trace = [] ∧ (fetchSnapshot env w).widget = w := by
  simp [fetchSnapshot, hc]

theorem fetchSnapshot_without_composite_witness :
    (fetchSnapshot { richEnv with hasComposite := false } emptyWidget).trace = []
    ∧ (fetchSnapshot { richEnv with hasComposite := false } emptyWidget).widget = emptyWidget :=
  fetchSnapshot_without_composite { richEnv with hasComposite := false } emptyWidget rfl

/-! ## The re-check signal -/

theorem signals_append (s t : List Event) : signals (s ++ t) = signals s + signals t := by
  simp [signals]

theorem signals_compositorCalls (env : Env) : signals (compositorCalls env) = 0 := by
  unfold signals
  rw [List.count_eq_zero]
  intro h
  exact absurd (mem_compositorCalls env _ h) (by decide)

theorem signals_sharedMemoryCalls (env : Env) : signals (sharedMemoryCalls env) = 0 := by
  unfold signals
  rw [List.count_eq_zero]
  intro h
  rcases mem_sharedMemoryCalls env _ h with h | h <;> cases h

theorem signals_releases (f : Frame) : signals (releases f) = 0 := by
  unfold signals
  rw [List.count_eq_zero]
  intro h
  rcases mem_releases f _ h with h | h | h <;> cases h.1

theorem signals_afterSources (env : Env) (x : Exit) :
    signals (afterSources env x).trace = signals x.frame.trace := by
  cases x with
  | returned f => rfl
  | fallThrough f =>
    simp only [afterSources, Exit.frame]
    have h : signals (f.trace ++ releases f ++ [Event.update]) = signals f.trace := by
      rw [signals_append, signals_append, signals_releases]
      rfl
    split
    · rfl
    · split
      · exact h
      · exact h

/-- The number of emissions of `requestCheckWindow()` by an invocation with
compositing enabled. -/
theorem signals_fetchSnapshot (env : Env) (w : Widget) (hc : env.hasComposite = true) :
    signals (fetchSnapshot env w).trace =
      if ¬ compositorBreaks env ∧ ¬ sharedMemoryBreaks env
          ∧ env.IS_WAYLAND_DISPLAY = false ∧ getImageXlib env = none then 1
      else 0 := by
  simp only [fetchSnapshot, hc, Bool.true_eq_false, if_false]
  rw [signals_afterSources]
  rcases sources_paths env w with ⟨hb, h⟩ | ⟨i, hn, hi, hs, h⟩ | ⟨hn, hm, hw, h⟩ |
    ⟨hn, hm, hw, hx, h⟩ | ⟨xi, hn, hm, hw, hx, hq, h⟩ | ⟨xi, hn, hm, hw, hx, hq, h⟩
  · rw [h, if_neg (by simp [hb])]; rfl
  · have hm : sharedMemoryBreaks env := ⟨by simp [hi], hs⟩
    rw [h, if_neg (by simp [hm])]
    simp only [Exit.frame, signals_append, signals_compositorCalls, signals_sharedMemoryCalls]
  · rw [h, if_neg (by simp [hw])]
    simp only [Exit.frame, signals_append, signals_compositorCalls, signals_sharedMemoryCalls]
  · rw [h, if_pos ⟨hn, hm, hw, hx⟩]
    simp only [Exit.frame, signals_append, signals_compositorCalls, signals_sharedMemoryCalls]
    rfl
  · rw [h, if_neg (by simp [hx])]
    simp only [Exit.frame, signals_append, signals_compositorCalls, signals_sharedMemoryCalls]
    rfl
  · rw [h, if_neg (by simp [hx])]
    simp only [Exit.frame, signals_append, signals_compositorCalls, signals_sharedMemoryCalls]
    rfl

/-- The `return` of line 247 leaves the members untouched and skips
`update()`. -/
theorem fetchSnapshot_of_failed_transfer (env : Env) (w : Widget)
    (hc : env.hasComposite = true) (hn : ¬ compositorBreaks env)
    (hm : ¬ sharedMemoryBreaks env) (hw : env.IS_WAYLAND_DISPLAY = false)
    (hx : getImageXlib env = none) :
    fetchSnapshot env w = ⟨w, compositorCalls env ++ sharedMemoryCalls env
      ++ [.getImageXlib false, .requestCheckWindow], false⟩ := by
  simp only [fetchSnapshot, hc, Bool.true_eq_false, if_false]
  rw [compositorSource_miss env _ hn, sharedMemorySource_miss env _ rfl hm,
    directSource_failed env _ hw rfl hx]
  simp [afterSources, Frame.widget, Frame.enter]

/-- C3, against the claim. On a Wayland display without compositor service and
without descriptor none of the three sources yields a bitmap, and the signal is
not emitted. -/
theorem exhausted_on_wayland_emits_nothing :
    waylandEnv.hasComposite = true
    ∧ compositorYields waylandEnv = false
    ∧ sharedMemoryYields waylandEnv = false
    ∧ directYields waylandEnv = false
    ∧ signals (fetchSnapshot waylandEnv emptyWidget).trace = 0 := by
  refine ⟨rfl, by decide, by decide, by decide, ?_⟩
  rw [signals_fetchSnapshot waylandEnv emptyWidget rfl]
  decide

/-- C3, amended. With compositing enabled the signal `requestCheckWindow()` is
emitted at most once. It is emitted exactly once when neither the compositor
source nor the shared memory source ended in `break`, the display is not a
Wayland display and the direct image transfer returned no image; the members
are then left as they were and `update()` is not called. On a Wayland display
it is not emitted. -/
theorem requestCheckWindow_once (env : Env) (w : Widget) (hc : env.hasComposite = true) :
    signals (fetchSnapshot env w).trace ≤ 1
    ∧ (¬ compositorBreaks env → ¬ sharedMemoryBreaks env →
        env.IS_WAYLAND_DISPLAY = false → getImageXlib env = none →
        signals (fetchSnapshot env w).trace = 1
        ∧ (fetchSnapshot env w).widget = w
        ∧ Event.update ∉ (fetchSnapshot env w).trace)
    ∧ (env.IS_WAYLAND_DISPLAY = true → signals (fetchSnapshot env w).trace = 0) := by
  have hs := signals_fetchSnapshot env w hc
  refine ⟨?_, ?_, ?_⟩
  · rw [hs]; split_ifs <;> simp
  · intro hn hm hw hx
    refine ⟨by rw [hs, if_pos ⟨hn, hm, hw, hx⟩], ?_⟩
    rw [fetchSnapshot_of_failed_transfer env w hc hn hm hw hx]
    refine ⟨rfl, ?_⟩
    intro hmem
    simp only [List.mem_append] at hmem
    rcases hmem with (h | h) | h
    · exact absurd (mem_compositorCalls env _ h) (by decide)
    · rcases mem_sharedMemoryCalls env _ h with h | h <;> cases h
    · simp at h
  · intro hw
    rw [hs, if_neg (by simp [hw])]

theorem requestCheckWindow_once_witness :
    (signals (fetchSnapshot bareEnv emptyWidget).trace = 1
      ∧ (fetchSnapshot bareEnv emptyWidget).widget = emptyWidget
      ∧ Event.update ∉ (fetchSnapshot bareEnv emptyWidget).trace)
    ∧ signals (fetchSnapshot { richEnv with IS_WAYLAND_DISPLAY := true } emptyWidget).trace
        = 0 :=
  ⟨(requestCheckWindow_once bareEnv emptyWidget rfl).2.1 (by decide) (by decide) rfl rfl,
    (requestCheckWindow_once { richEnv with IS_WAYLAND_DISPLAY := true } emptyWidget rfl).2.2
      rfl⟩

/-! ## Falling back to the next source -/

/-- C4, against the claim. A reported file that fails to load ends the
compositor source without a bitmap, yet the shared memory source is not
attempted; and on a Wayland display the shared memory source yields nothing,
yet the direct source is not attempted. -/
theorem failure_without_fallback :
    (loadFailEnv.hasComposite = true
      ∧ compositorYields loadFailEnv = false
      ∧ attempts (fetchSnapshot loadFailEnv emptyWidget).trace = [.compositor])
    ∧ (waylandEnv.hasComposite = true
      ∧ sharedMemoryYields waylandEnv = false
      ∧ attempts (fetchSnapshot waylandEnv emptyWidget).trace
          = [.compositor, .sharedMemory]) := by
  refine ⟨⟨rfl, by decide, ?_⟩, ⟨rfl, by decide, ?_⟩⟩
  · rw [attempts_fetchSnapshot loadFailEnv emptyWidget rfl]
    decide
  · rw [attempts_fetchSnapshot waylandEnv emptyWidget rfl]
    decide

/-- C4, amended. With compositing enabled: whenever the compositor source ends
without reporting an existing file (service not available, invalid reply, or
reported file missing), the shared memory source is attempted next; whenever
in addition the shared memory source yields nothing (no descriptor, or the
attach fails) and the display is not a Wayland display, the direct source is
attempted next; on a Wayland display the direct source is never attempted. -/
theorem fetchSnapshot_falls_back (env : Env) (w : Widget) (hc : env.hasComposite = true) :
    (¬ compositorBreaks env →
      ∃ rest, attempts (fetchSnapshot env w).trace = .compositor :: .sharedMemory :: rest)
    ∧ (¬ compositorBreaks env → ¬ sharedMemoryBreaks env → env.IS_WAYLAND_DISPLAY = false →
      attempts (fetchSnapshot env w).trace = [.compositor, .sharedMemory, .direct])
    ∧ (env.IS_WAYLAND_DISPLAY = true →
      Source.direct ∉ attempts (fetchSnapshot env w).trace) := by
  have ha := attempts_fetchSnapshot env w hc
  refine ⟨?_, ?_, ?_⟩
  · intro hn
    rw [ha, if_neg hn]
    split_ifs
    · exact ⟨[], rfl⟩
    · exact ⟨[.direct], rfl⟩
  · intro hn hm hw
    rw [ha, if_neg hn, if_neg (by simp [hm, hw])]
  · intro hw
    rw [ha]
    split_ifs with h1 h2
    · decide
    · decide
    · exact absurd (Or.inr hw) h2

theorem fetchSnapshot_falls_back_witness :
    attempts (fetchSnapshot directEnv emptyWidget).trace
      = [.compositor, .sharedMemory, .direct]
    ∧ Source.direct ∉ attempts (fetchSnapshot waylandEnv emptyWidget).trace :=
  ⟨(fetchSnapshot_falls_back directEnv emptyWidget rfl).2.1 (by decide) (by decide) rfl,
    (fetchSnapshot_falls_back waylandEnv emptyWidget rfl).2.2 rfl⟩


/-! ## Release of native resources -/

/-- C5, at the failing input. The window is minimized: the descriptor buffer is
returned by `getImageDSHM`, the attach fails and the image transfer returns
nothing. The `return` of line 247 is taken and `XFree(info)` is never called:
one descriptor buffer acquired, none freed. The `return` of line 264 skips the
releases as well: with a descriptor whose content rectangle is still empty the
segment is attached once and neither detached nor is the buffer freed. -/
theorem descriptor_buffer_leaked :
    ((fetchSnapshot staleDescriptorEnv emptyWidget).trace
        = [.isKWinAvailable, .getImageDSHM true, .shmat false, .getImageXlib false,
            .requestCheckWindow]
      ∧ (fetchSnapshot staleDescriptorEnv emptyWidget).trace.count (.getImageDSHM true) = 1
      ∧ (fetchSnapshot staleDescriptorEnv emptyWidget).trace.count .XFree = 0)
    ∧ ((fetchSnapshot emptyRectEnv emptyWidget).trace
        = [.isKWinAvailable, .getImageDSHM true, .shmat true]
      ∧ (fetchSnapshot emptyRectEnv emptyWidget).trace.count (.shmat true) = 1
      ∧ (fetchSnapshot emptyRectEnv emptyWidget).trace.count .shmdt = 0
      ∧ (fetchSnapshot emptyRectEnv emptyWidget).trace.count .XFree = 0) := by
  have h : (fetchSnapshot staleDescriptorEnv emptyWidget).trace
      = [.isKWinAvailable, .getImageDSHM true, .shmat false, .getImageXlib false,
          .requestCheckWindow] := by
    rw [fetchSnapshot_of_failed_transfer staleDescriptorEnv emptyWidget rfl (by decide)
      (by decide) rfl rfl]
    decide
  have h2 : (fetchSnapshot emptyRectEnv emptyWidget).trace
      = [.isKWinAvailable, .getImageDSHM true, .shmat true] := by decide
  rw [h, h2]
  exact ⟨⟨rfl, by decide, by decide⟩, ⟨rfl, by decide, by decide, by decide⟩⟩

/-! ## Shadow trimming -/

theorem toInt_of_range (z : Int) (h1 : -2147483648 ≤ z) (h2 : z < 2147483648) : toInt z = z := by
  unfold toInt
  omega

theorem trimmed_rect_of_range (w h : Int) (l r t b : Nat)
    (hl : l < 1073741824) (hr : r < 1073741824) (ht : t < 1073741824) (hb : b < 1073741824)
    (hw0 : 0 ≤ w) (hw1 : w ≤ 1073741824) (hh0 : 0 ≤ h) (hh1 : h ≤ 1073741824) :
    (⟨toInt l, toInt t, toInt (toInt (w - toInt l) - toInt r),
        toInt (toInt (h - toInt t) - toInt b)⟩ : QRect) = ⟨l, t, w - l - r, h - t - b⟩ := by
  have el : toInt (l : Int) = l := toInt_of_range _ (by omega) (by omega)
  have er : toInt (r : Int) = r := toInt_of_range _ (by omega) (by omega)
  have et : toInt (t : Int) = t := toInt_of_range _ (by omega) (by omega)
  have eb : toInt (b : Int) = b := toInt_of_range _ (by omega) (by omega)
  rw [el, er, et, eb]
  rw [toInt_of_range (w - l) (by omega) (by omega),
    toInt_of_range (h - t) (by omega) (by omega),
    toInt_of_range (w - l - r) (by omega) (by omega),
    toInt_of_range (h - t - b) (by omega) (by omega)]

/-- The branch of line 438 that is taken for a well-formed reply. -/
theorem rectRemovedShadow_of_extents (qimage : QImage) (reply : PropertyReply)
    (l r t b : Nat) (hr : reply.r = 0) (hf : reply.actual_format = 32)
    (hp : reply.prop = some [l, r, t, b]) :
    rectRemovedShadow true qimage reply
      = ⟨toInt l, toInt t, toInt (toInt (qimage.width - toInt l) - toInt r),
          toInt (toInt (qimage.height - toInt t) - toInt b)⟩ := by
  simp [rectRemovedShadow, hr, hf, hp]

/-- The `else` branch of line 449. -/
theorem rectRemovedShadow_of_malformed (qimage : QImage) (reply : PropertyReply)
    (h : ¬ (reply.r = 0 ∧ reply.actual_format = 32
      ∧ ∃ items, reply.prop = some items ∧ items.length = 4)) :
    rectRemovedShadow true qimage reply = ⟨0, 0, qimage.width, qimage.height⟩ := by
  unfold rectRemovedShadow
  cases hp : reply.prop with
  | none => simp
  | some items =>
    simp only [Bool.true_eq_false, if_false]
    rw [if_neg]
    intro ⟨hr, hl, hf⟩
    exact h ⟨hr, hf, items, hp, hl⟩

/-- C7. With the display connection available, `rectRemovedShadow` on an image
of size `w x h` returns `(left, top, w - left - right, h - top - bottom)` when
the property read succeeds with exactly 4 items of format 32, read in the order
left, right, top, bottom (the items converted to `int`, the subtractions being
`int` subtractions, which for items below `2^30` and an image size of at most
`2^30` are the plain integer ones), and the full image bounds `(0, 0, w, h)` in
every other case: failed read, null buffer, another item count, another
format. Extents `(10, 10, 5, 15)` on a `300 x 200` image give
`(10, 5, 280, 180)`. -/
theorem rectRemovedShadow_extents (qimage : QImage) (reply : PropertyReply) :
    (∀ l r t b : Nat, reply.r = 0 → reply.actual_format = 32 →
        reply.prop = some [l, r, t, b] →
        rectRemovedShadow true qimage reply
          = ⟨toInt l, toInt t, toInt (toInt (qimage.width - toInt l) - toInt r),
              toInt (toInt (qimage.height - toInt t) - toInt b)⟩)
    ∧ (∀ l r t b : Nat, reply.r = 0 → reply.actual_format = 32 →
        reply.prop = some [l, r, t, b] →
        l < 1073741824 → r < 1073741824 → t < 1073741824 → b < 1073741824 →
        0 ≤ qimage.width → qimage.width ≤ 1073741824 →
        0 ≤ qimage.height → qimage.height ≤ 1073741824 →
        rectRemovedShadow true qimage reply
          = ⟨l, t, qimage.width - l - r, qimage.height - t - b⟩)
    ∧ (¬ (reply.r = 0 ∧ reply.actual_format = 32
          ∧ ∃ items, reply.prop = some items ∧ items.length = 4) →
        rectRemovedShadow true qimage reply = ⟨0, 0, qimage.width, qimage.height⟩)
    ∧ rectRemovedShadow true (.image 300 200) ⟨0, 32, some [10, 10, 5, 15]⟩
        = ⟨10, 5, 280, 180⟩ := by
  refine ⟨rectRemovedShadow_of_extents qimage reply, ?_,
    rectRemovedShadow_of_malformed qimage reply, by decide⟩
  intro l r t b hr hf hp hl hr2 ht hb hw0 hw1 hh0 hh1
  exact (rectRemovedShadow_of_extents qimage reply l r t b hr hf hp).trans
    (trimmed_rect_of_range qimage.width qimage.height l r t b hl hr2 ht hb hw0 hw1 hh0 hh1)

theorem rectRemovedShadow_extents_witness :
    rectRemovedShadow true (.image 300 200) ⟨0, 32, some [10, 10, 5, 15]⟩
        = ⟨10, 5, 300 - 10 - 10, 200 - 5 - 15⟩
    ∧ rectRemovedShadow true (.image 300 200) ⟨0, 32, some [10, 10, 5]⟩
        = ⟨0, 0, 300, 200⟩ :=
  ⟨(rectRemovedShadow_extents (.image 300 200) ⟨0, 32, some [10, 10, 5, 15]⟩).2.1
      10 10 5 15 rfl rfl rfl (by decide) (by decide) (by decide) (by decide)
      (by decide) (by decide) (by decide) (by decide),
    (rectRemovedShadow_extents (.image 300 200) ⟨0, 32, some [10, 10, 5]⟩).2.2.1 (by decide)⟩

/-! ## Containment before normalization -/

theorem contains_of_inside (W H x y w h : ℚ) (hx : 0 ≤ x) (hy : 0 ≤ y) (hw : 0 < w) (hh : 0 < h)
    (hxw : x + w ≤ W) (hyh : y + h ≤ H) :
    QRectF.contains ⟨0, 0, W, H⟩ ⟨x, y, w, h⟩ = true := by
  have hW : ¬ W < 0 := by linarith
  have hH : ¬ H < 0 := by linarith
  have hw2 : ¬ w < 0 := by linarith
  have hh2 : ¬ h < 0 := by linarith
  simp only [QRectF.contains, spanLow, spanHigh, hW, hH, hw2, hh2, if_false]
  rw [if_neg (by intro h0; linarith), if_neg (by intro h0; linarith),
    if_neg (by rintro (h0 | h0) <;> linarith), if_neg (by intro h0; linarith),
    if_neg (by intro h0; linarith), if_neg (by rintro (h0 | h0) <;> linarith)]

theorem create_of_not_null (ok : Bool) (w h : Int) (hn : (QImage.create ok w h).isNull = false) :
    QImage.create ok w h = .image w h ∧ 0 < w ∧ 0 < h := by
  unfold QImage.create at hn ⊢
  split_ifs at hn ⊢ with hc
  · simp [QImage.isNull] at hn
  · exact ⟨rfl, by omega, by omega⟩

theorem captured_of_compositor (env : Env) (w : Widget) (hb : compositorBreaks env) :
    (captured env w).m_snapshot = loadImage env.tmpFileImage
    ∧ (captured env w).m_snapshotSrcRect = QRectF.ofQRect (loadImage env.tmpFileImage).rect := by
  unfold captured
  rw [compositorSource_break env _ hb]
  exact ⟨rfl, rfl⟩

theorem captured_of_sharedMemory (env : Env) (w : Widget) (i : SHMInfo)
    (hn : ¬ compositorBreaks env) (hi : getImageDSHM env = some i) (hs : env.shmatOk = true) :
    (captured env w).m_snapshot
        = QImage.create env.shmParamsOk (toInt i.width) (toInt i.height)
    ∧ (captured env w).m_snapshotSrcRect = QRectF.ofQRect
        ⟨toInt i.rect.x, toInt i.rect.y, toInt i.rect.width, toInt i.rect.height⟩ := by
  unfold captured
  rw [compositorSource_miss env _ hn, sharedMemorySource_break env _ i hi hs]
  exact ⟨rfl, rfl⟩

theorem captured_of_direct (env : Env) (w : Widget) (xi : XImage)
    (hn : ¬ compositorBreaks env) (hm : ¬ sharedMemoryBreaks env)
    (hw : env.IS_WAYLAND_DISPLAY = false) (hx : getImageXlib env = some xi)
    (hq : (QImage.create env.ximageParamsOk xi.width xi.height).isNull = false) :
    (captured env w).m_snapshot = QImage.create env.ximageParamsOk xi.width xi.height
    ∧ (captured env w).m_snapshotSrcRect = QRectF.ofQRect (rectRemovedShadow true
        (QImage.create env.ximageParamsOk xi.width xi.height) env.gtkFrameExtents) := by
  have hd : env.display = true := by
    unfold getImageXlib at hx
    split_ifs at hx with h
    simpa using h
  unfold captured
  rw [compositorSource_miss env _ hn, sharedMemorySource_miss env _ rfl hm,
    directSource_image env _ xi hw rfl hx hq, hd]
  exact ⟨rfl, rfl⟩

theorem loadImage_of_not_null (file : Option (Int × Int))
    (hn : (loadImage file).isNull = false) :
    ∃ w h, loadImage file = .image w h ∧ 0 < w ∧ 0 < h := by
  cases file with
  | none => simp [loadImage, QImage.isNull] at hn
  | some p =>
    obtain ⟨w, h⟩ := p
    exact ⟨w, h, create_of_not_null true w h hn⟩

theorem srcRectInBounds_of_inside (f : Frame) (W H x y w h : Int)
    (hs : f.m_snapshot = .image W H) (hr : f.m_snapshotSrcRect = QRectF.ofQRect ⟨x, y, w, h⟩)
    (hx : 0 ≤ x) (hy : 0 ≤ y) (hw : 0 < w) (hh : 0 < h)
    (hxw : x + w ≤ W) (hyh : y + h ≤ H) : f.srcRectInBounds = true := by
  unfold Frame.srcRectInBounds
  rw [hs, hr]
  simp only [QImage.rect, QImage.width, QImage.height, QRectF.ofQRect]
  exact contains_of_inside _ _ _ _ _ _ (by exact_mod_cast hx) (by exact_mod_cast hy)
    (by exact_mod_cast hw) (by exact_mod_cast hh) (by exact_mod_cast hxw)
    (by exact_mod_cast hyh)

/-- C6, against the claim. The shared memory source takes the content rectangle
from the descriptor as it is: a descriptor of a 100 x 100 buffer with rectangle
(50, 50, 100, 100) gives a source rectangle that leaves the bitmap. The direct
source subtracts the shadow extents as they are: extents of 400 on every side
of a 300 x 200 image give the rectangle (400, 400, -500, -600). -/
theorem srcRect_outside_bitmap :
    (sharedMemoryYields overhangEnv = true
      ∧ (captured overhangEnv emptyWidget).m_snapshot = .image 100 100
      ∧ (captured overhangEnv emptyWidget).m_snapshotSrcRect = ⟨50, 50, 100, 100⟩
      ∧ (captured overhangEnv emptyWidget).srcRectInBounds = false)
    ∧ (directYields oversizedShadowEnv = true
      ∧ (captured oversizedShadowEnv emptyWidget).m_snapshot = .image 300 200
      ∧ (captured oversizedShadowEnv emptyWidget).m_snapshotSrcRect = ⟨400, 400, -500, -600⟩
      ∧ (captured oversizedShadowEnv emptyWidget).srcRectInBounds = false) := by
  obtain ⟨a1, a2⟩ := captured_of_sharedMemory overhangEnv emptyWidget
    ⟨7, 100, 100, 400, 4, ⟨50, 50, 100, 100⟩⟩ (by decide) rfl rfl
  obtain ⟨b1, b2⟩ := captured_of_direct oversizedShadowEnv emptyWidget ⟨300, 200, 1200⟩
    (by decide) (by decide) rfl rfl (by decide)
  have a3 : (captured overhangEnv emptyWidget).m_snapshot = .image 100 100 := by
    rw [a1]; decide
  have a4 : (captured overhangEnv emptyWidget).m_snapshotSrcRect = ⟨50, 50, 100, 100⟩ := by
    rw [a2]; norm_num [QRectF.ofQRect, toInt]
  have b3 : (captured oversizedShadowEnv emptyWidget).m_snapshot = .image 300 200 := by
    rw [b1]; decide
  have b4 : (captured oversizedShadowEnv emptyWidget).m_snapshotSrcRect
      = ⟨400, 400, -500, -600⟩ := by
    rw [b2]
    have : rectRemovedShadow true
        (QImage.create oversizedShadowEnv.ximageParamsOk
          (⟨300, 200, 1200⟩ : XImage).width (⟨300, 200, 1200⟩ : XImage).height)
        oversizedShadowEnv.gtkFrameExtents = ⟨400, 400, -500, -600⟩ := by decide
    rw [this]
    norm_num [QRectF.ofQRect]
  refine ⟨⟨by decide, a3, a4, ?_⟩, ⟨by decide, b3, b4, ?_⟩⟩
  · unfold Frame.srcRectInBounds
    rw [a3, a4]
    norm_num [QRectF.contains, QRectF.ofQRect, QImage.rect, QImage.width, QImage.height,
      spanLow, spanHigh]
  · unfold Frame.srcRectInBounds
    rw [b3, b4]
    norm_num [QRectF.contains, QRectF.ofQRect, QImage.rect, QImage.width, QImage.height,
      spanLow, spanHigh]

/-- C6, amended. Before the geometry normalization the source rectangle lies
within the bounds of the bitmap: for the compositor source always (it is the
bounds of the loaded image); for the shared memory source whenever the
descriptor's rectangle, as converted to `int`, has positive size and lies
within the descriptor's width and height; for the direct source whenever the
shadow extents are absent or malformed, or are well-formed with
`left + right` below the image width and `top + bottom` below the image
height. -/
theorem captured_srcRect_in_bounds (env : Env) (w : Widget) :
    (compositorYields env = true → (captured env w).srcRectInBounds = true)
    ∧ (∀ i, ¬ compositorBreaks env → getImageDSHM env = some i →
        sharedMemoryYields env = true →
        0 ≤ toInt i.rect.x → 0 ≤ toInt i.rect.y →
        0 < toInt i.rect.width → 0 < toInt i.rect.height →
        toInt i.rect.x + toInt i.rect.width ≤ toInt i.width →
        toInt i.rect.y + toInt i.rect.height ≤ toInt i.height →
        (captured env w).srcRectInBounds = true)
    ∧ (∀ xi, ¬ compositorBreaks env → ¬ sharedMemoryBreaks env →
        getImageXlib env = some xi → directYields env = true →
        ¬ (env.gtkFrameExtents.r = 0 ∧ env.gtkFrameExtents.actual_format = 32
          ∧ ∃ items, env.gtkFrameExtents.prop = some items ∧ items.length = 4) →
        (captured env w).srcRectInBounds = true)
    ∧ (∀ xi (l r t b : Nat), ¬ compositorBreaks env → ¬ sharedMemoryBreaks env →
        getImageXlib env = some xi → directYields env = true →
        env.gtkFrameExtents.r = 0 → env.gtkFrameExtents.actual_format = 32 →
        env.gtkFrameExtents.prop = some [l, r, t, b] →
        (l : Int) + r < xi.width → (t : Int) + b < xi.height →
        xi.width ≤ 1073741824 → xi.height ≤ 1073741824 →
        (captured env w).srcRectInBounds = true) := by
  refine ⟨?_, ?_, ?_, ?_⟩
  · intro hy
    simp only [compositorYields, Bool.and_eq_true, decide_eq_true_eq, Bool.not_eq_true',
      ] at hy
    obtain ⟨hb, hl⟩ := hy
    obtain ⟨c1, c2⟩ := captured_of_compositor env w hb
    obtain ⟨W, H, hi, hW, hH⟩ := loadImage_of_not_null _ hl
    rw [hi] at c1 c2
    exact srcRectInBounds_of_inside _ W H 0 0 W H c1 c2 le_rfl le_rfl hW hH (by omega) (by omega)
  · intro i hn hi hy hx hy2 hw hh hxw hyh
    simp only [sharedMemoryYields, hi, Bool.and_eq_true, Bool.not_eq_true'] at hy
    obtain ⟨hs, hq⟩ := hy
    obtain ⟨c1, c2⟩ := captured_of_sharedMemory env w i hn hi hs
    rw [(create_of_not_null _ _ _ hq).1] at c1
    exact srcRectInBounds_of_inside _ _ _ _ _ _ _ c1 c2 hx hy2 hw hh hxw hyh
  · intro xi hn hm hx hy hmal
    simp only [directYields, hx, Bool.and_eq_true, Bool.not_eq_true'] at hy
    obtain ⟨hw, hq⟩ := hy
    obtain ⟨c1, c2⟩ := captured_of_direct env w xi hn hm hw hx hq
    obtain ⟨e, hW, hH⟩ := create_of_not_null _ _ _ hq
    rw [rectRemovedShadow_of_malformed _ _ hmal] at c2
    rw [e] at c1 c2
    exact srcRectInBounds_of_inside _ _ _ 0 0 _ _ c1 c2 le_rfl le_rfl hW hH (by simp [QImage.width])
      (by simp [QImage.height])
  · intro xi l r t b hn hm hx hy hr hf hp hlr htb hW1 hH1
    simp only [directYields, hx, Bool.and_eq_true, Bool.not_eq_true'] at hy
    obtain ⟨hw, hq⟩ := hy
    obtain ⟨c1, c2⟩ := captured_of_direct env w xi hn hm hw hx hq
    obtain ⟨e, hW, hH⟩ := create_of_not_null _ _ _ hq
    rw [e] at c1 c2
    rw [rectRemovedShadow_of_extents _ _ l r t b hr hf hp,
      trimmed_rect_of_range (QImage.image xi.width xi.height).width
        (QImage.image xi.width xi.height).height l r t b
        (by omega) (by omega) (by omega) (by omega)
        (by simp only [QImage.width]; omega) (by simp only [QImage.width]; omega)
        (by simp only [QImage.height]; omega) (by simp only [QImage.height]; omega)] at c2
    simp only [QImage.width, QImage.height] at c2
    exact srcRectInBounds_of_inside _ _ _ _ _ _ _ c1 c2 (by omega) (by omega) (by omega)
      (by omega) (by omega) (by omega)

theorem captured_srcRect_in_bounds_witness :
    (captured richEnv emptyWidget).srcRectInBounds = true
    ∧ (captured sharedMemoryEnv emptyWidget).srcRectInBounds = true
    ∧ (captured directEnv emptyWidget).srcRectInBounds = true
    ∧ (captured shadowEnv emptyWidget).srcRectInBounds = true :=
  ⟨(captured_srcRect_in_bounds richEnv emptyWidget).1 (by decide),
    (captured_srcRect_in_bounds sharedMemoryEnv emptyWidget).2.1 sampleInfo (by decide) rfl
      (by decide) (by decide) (by decide) (by decide) (by decide) (by decide) (by decide),
    (captured_srcRect_in_bounds directEnv emptyWidget).2.2.1 ⟨300, 200, 1200⟩ (by decide)
      (by decide) rfl (by decide) (by decide),
    (captured_srcRect_in_bounds shadowEnv emptyWidget).2.2.2 ⟨300, 200, 1200⟩ 10 10 5 15
      (by decide) (by decide) rfl (by decide) rfl rfl rfl (by decide) (by decide) (by decide)
      (by decide)⟩

/-! ## Binary64 rounding -/

theorem roundHalfEven_sub_le (q : ℚ) : |(roundHalfEven q : ℚ) - q| ≤ 1 / 2 := by
  have h1 := Int.floor_le q
  have h2 := Int.lt_floor_add_one q
  unfold roundHalfEven
  split_ifs with a b c
  · rw [abs_le]; constructor <;> linarith
  · push_cast; rw [abs_le]; constructor <;> linarith
  · rw [abs_le]; constructor <;> linarith
  · push_cast; rw [abs_le]; constructor <;> linarith

theorem roundHalfEven_of_near (q : ℚ) (n : Int) (h1 : (n : ℚ) - 1 / 2 < q)
    (h2 : q < (n : ℚ) + 1 / 2) : roundHalfEven q = n := by
  have h := roundHalfEven_sub_le q
  rw [abs_le] at h
  have a : ((roundHalfEven q : Int) : ℚ) < (n : ℚ) + 1 := by linarith
  have b : (n : ℚ) - 1 < ((roundHalfEven q : Int) : ℚ) := by linarith
  have a2 : roundHalfEven q < n + 1 := by exact_mod_cast a
  have b2 : n - 1 < roundHalfEven q := by exact_mod_cast b
  omega

theorem two_zpow_pos (e : Int) : (0 : ℚ) < 2 ^ e := zpow_pos (by norm_num) e

theorem ulpExponent_eq (x : ℚ) (e : Int) (hlo : (2 : ℚ) ^ (e + 52) ≤ |x|)
    (hhi : |x| < (2 : ℚ) ^ (e + 53)) : ulpExponent x = e := by
  have hx : 0 < |x| := lt_of_lt_of_le (two_zpow_pos _) hlo
  have h1 : e + 52 ≤ Int.log 2 |x| := by
    rw [← Int.zpow_le_iff_le_log (by norm_num) hx]
    simpa using hlo
  have h2 : Int.log 2 |x| < e + 53 := by
    rw [← Int.lt_zpow_iff_log_lt (by norm_num) hx]
    simpa using hhi
  unfold ulpExponent
  omega

theorem round64_zero : round64 0 = 0 := by
  simp [round64, roundHalfEven]

/-- Evaluation of one rounding from a certificate: the binade of `x` and the
integer nearest to the scaled value. -/
theorem round64_of_near (x : ℚ) (n e : Int) (hlo : (2 : ℚ) ^ (e + 52) ≤ |x|)
    (hhi : |x| < (2 : ℚ) ^ (e + 53)) (h1 : ((n : ℚ) - 1 / 2) * 2 ^ e < x)
    (h2 : x < ((n : ℚ) + 1 / 2) * 2 ^ e) : round64 x = (n : ℚ) * 2 ^ e := by
  have he := ulpExponent_eq x e hlo hhi
  have hp := two_zpow_pos e
  unfold round64
  rw [he, roundHalfEven_of_near (x / 2 ^ e) n]
  · rw [lt_div_iff₀ hp]; exact h1
  · rw [div_lt_iff₀ hp]; exact h2

/-- Evaluation of one rounding to a given value. -/
theorem round64_eq (x v : ℚ) (n e : Int) (hv : v = (n : ℚ) * 2 ^ e)
    (hlo : (2 : ℚ) ^ (e + 52) ≤ |x|) (hhi : |x| < (2 : ℚ) ^ (e + 53))
    (h1 : ((n : ℚ) - 1 / 2) * 2 ^ e < x) (h2 : x < ((n : ℚ) + 1 / 2) * 2 ^ e) :
    round64 x = v := by
  rw [hv]
  exact round64_of_near x n e hlo hhi h1 h2

theorem scaleFactor_of_ne_zero (srcRect : QRectF) (budget : QSizeF) (dpr : ℚ)
    (hw : srcRect.width ≠ 0) :
    scaleFactor srcRect budget dpr
      = some (round64 ((targetSize srcRect budget dpr).width / srcRect.width)) := by
  simp [scaleFactor, hw, fdiv]

/-- An invocation that passes the null check with a source rectangle of
non-zero width publishes the normalized pair. -/
theorem fetchSnapshot_published (env : Env) (w : Widget) (hc : env.hasComposite = true)
    (hs : captureSucceeds env w = true)
    (hw : (captured env w).m_snapshotSrcRect.width ≠ 0) :
    (fetchSnapshot env w).widget
      = ⟨normalizeSnapshot (captured env w).m_snapshot
            (round64 ((targetSize (captured env w).m_snapshotSrcRect (displayBudget env)
              env.devicePixelRatioF).width / (captured env w).m_snapshotSrcRect.width)),
          normalizeSrcRect (captured env w).m_snapshotSrcRect
            (targetSize (captured env w).m_snapshotSrcRect (displayBudget env)
              env.devicePixelRatioF)
            (round64 ((targetSize (captured env w).m_snapshotSrcRect (displayBudget env)
              env.devicePixelRatioF).width / (captured env w).m_snapshotSrcRect.width))⟩
    ∧ (fetchSnapshot env w).dividedByZero = false
    ∧ (fetchSnapshot env w).trace
        = (captured env w).trace ++ releases (captured env w) ++ [Event.update] := by
  unfold captureSucceeds at hs
  unfold captured at hw ⊢
  simp only [fetchSnapshot, hc, Bool.true_eq_false, if_false]
  cases hx : compositorSource env (Frame.enter w) with
  | returned f => simp [hx] at hs
  | fallThrough f =>
    simp only [hx, Bool.and_eq_true, Bool.not_eq_true'] at hs
    simp only [hx, Exit.frame] at hw
    simp [afterSources, Exit.frame, hs.1, hs.2, scaleFactor_of_ne_zero _ _ _ hw]

theorem normalizeSrcRect_eq (srcRect : QRectF) (size : QSizeF) (scale : ℚ) :
    normalizeSrcRect srcRect size scale
      = ⟨round64 (round64 (srcRect.left * scale) + 1 / 2),
          round64 (round64 (srcRect.top * scale) + 1 / 2),
          round64 (size.width - 1 / 2), round64 (size.height - 1 / 2)⟩ := rfl

/-- A 232 x 145 bitmap with its full bounds as source rectangle in a budget of
100 x 100 at ratio 1: the scale factor is the `double` nearest to 100 / 232,
the bitmap is resampled to 100 x 62 and the published rectangle has height
62, so that its bottom edge lies at 62 + 1/2: the distance of one half is
reached. -/
theorem published_edge_reaches_half :
    scaleFactor ⟨0, 0, 232, 145⟩ ⟨100, 100⟩ 1 = some (3882413471871117 / 9007199254740992)
    ∧ normalizeSnapshot (.image 232 145) (3882413471871117 / 9007199254740992) = .image 100 62
    ∧ normalizeSrcRect ⟨0, 0, 232, 145⟩ (targetSize ⟨0, 0, 232, 145⟩ ⟨100, 100⟩ 1) (3882413471871117 / 9007199254740992)
        = ⟨1 / 2, 1 / 2, 199 / 2, 62⟩
    ∧ (normalizeSrcRect ⟨0, 0, 232, 145⟩ (targetSize ⟨0, 0, 232, 145⟩ ⟨100, 100⟩ 1)
        (3882413471871117 / 9007199254740992)).bottom = 62 + 1 / 2 := by
  have k0 : round64 (25 / 58) = (3882413471871117 / 9007199254740992) :=
    round64_eq (25 / 58) (3882413471871117 / 9007199254740992) 7764826943742234 (-54) (by norm_num) (by norm_num [abs_of_pos])
      (by norm_num [abs_of_pos]) (by norm_num) (by norm_num)
  have k1 : round64 (1 / 2) = (1 / 2) :=
    round64_eq (1 / 2) (1 / 2) 4503599627370496 (-53) (by norm_num) (by norm_num [abs_of_pos])
      (by norm_num [abs_of_pos]) (by norm_num) (by norm_num)
  have k2 : round64 62 = 62 :=
    round64_eq 62 62 8725724278030336 (-47) (by norm_num) (by norm_num [abs_of_pos])
      (by norm_num [abs_of_pos]) (by norm_num) (by norm_num)
  have k3 : round64 (562949953421311965 / 9007199254740992) = (8796093022207999 / 140737488355328) :=
    round64_eq (562949953421311965 / 9007199254740992) (8796093022207999 / 140737488355328) 8796093022207999 (-47) (by norm_num) (by norm_num [abs_of_pos])
      (by norm_num [abs_of_pos]) (by norm_num) (by norm_num)
  have k4 : round64 (125 / 2) = (125 / 2) :=
    round64_eq (125 / 2) (125 / 2) 8796093022208000 (-47) (by norm_num) (by norm_num [abs_of_pos])
      (by norm_num [abs_of_pos]) (by norm_num) (by norm_num)
  have k5 : round64 (8866461766385663 / 140737488355328) = (8866461766385663 / 140737488355328) :=
    round64_eq (8866461766385663 / 140737488355328) (8866461766385663 / 140737488355328) 8866461766385663 (-47) (by norm_num) (by norm_num [abs_of_pos])
      (by norm_num [abs_of_pos]) (by norm_num) (by norm_num)
  have k6 : round64 (199 / 2) = (199 / 2) :=
    round64_eq (199 / 2) (199 / 2) 7001690045677568 (-46) (by norm_num) (by norm_num [abs_of_pos])
      (by norm_num [abs_of_pos]) (by norm_num) (by norm_num)
  have k7 : round64 (112589990684262393 / 1125899906842624) = 100 :=
    round64_eq (112589990684262393 / 1125899906842624) 100 7036874417766400 (-46) (by norm_num) (by norm_num [abs_of_pos])
      (by norm_num [abs_of_pos]) (by norm_num) (by norm_num)
  have k8 : round64 100 = 100 :=
    round64_eq 100 100 7036874417766400 (-46) (by norm_num) (by norm_num [abs_of_pos])
      (by norm_num [abs_of_pos]) (by norm_num) (by norm_num)
  have k9 : round64 (201 / 2) = (201 / 2) :=
    round64_eq (201 / 2) (201 / 2) 7072058789855232 (-46) (by norm_num) (by norm_num [abs_of_pos])
      (by norm_num [abs_of_pos]) (by norm_num) (by norm_num)
  have k10 : round64 160 = 160 :=
    round64_eq 160 160 5629499534213120 (-45) (by norm_num) (by norm_num [abs_of_pos])
      (by norm_num [abs_of_pos]) (by norm_num) (by norm_num)
  have k11 : round64 14500 = 14500 :=
    round64_eq 14500 14500 7971459301376000 (-39) (by norm_num) (by norm_num [abs_of_pos])
      (by norm_num [abs_of_pos]) (by norm_num) (by norm_num)
  have k12 : round64 23200 = 23200 :=
    round64_eq 23200 23200 6377167441100800 (-38) (by norm_num) (by norm_num [abs_of_pos])
      (by norm_num [abs_of_pos]) (by norm_num) (by norm_num)
  have ht : targetSize ⟨0, 0, 232, 145⟩ ⟨100, 100⟩ 1 = ⟨100, 125 / 2⟩ := by
    norm_num [targetSize, QSizeF.scaled, QRectF.size, QSizeF.mul, fadd, fsub, fmul, fdiv,
      round64_zero, k0, k1, k2, k3, k4, k5, k6, k7, k8, k9, k10, k11, k12]
  have hr : normalizeSrcRect ⟨0, 0, 232, 145⟩ (targetSize ⟨0, 0, 232, 145⟩ ⟨100, 100⟩ 1) (3882413471871117 / 9007199254740992)
      = ⟨1 / 2, 1 / 2, 199 / 2, 62⟩ := by
    rw [ht, normalizeSrcRect_eq]
    norm_num [QRectF.left, QRectF.top, round64_zero, k0, k1, k2, k3, k4, k5, k6, k7, k8, k9, k10, k11, k12]
  refine ⟨?_, ?_, hr, ?_⟩
  · rw [scaleFactor_of_ne_zero _ _ _ (by norm_num), ht]
    norm_num [k0, k1, k2, k3, k4, k5, k6, k7, k8, k9, k10, k11, k12]
  · norm_num [normalizeSnapshot, QImage.scaled, QImage.width, QImage.height, qRound,
      truncToInt, fadd, fsub, fmul, fdiv, round64_zero, Int.floor_eq_iff, k0, k1, k2, k3, k4, k5, k6, k7, k8, k9, k10, k11, k12]
  · rw [hr]
    norm_num [QRectF.bottom]

/-- When no source ends in `break` and the direct source is skipped, the
members at the end of the `do` block are those the widget held on entry. -/
theorem captured_of_skipped (env : Env) (w : Widget)
    (hn : ¬ compositorBreaks env) (hm : ¬ sharedMemoryBreaks env)
    (hw : env.IS_WAYLAND_DISPLAY = true) :
    compositorSource env (Frame.enter w) = .fallThrough
        ⟨w.m_snapshot, w.m_snapshotSrcRect, .null, getImageDSHM env, false, none,
          compositorCalls env ++ sharedMemoryCalls env⟩
    ∧ (captured env w).m_snapshot = w.m_snapshot
    ∧ (captured env w).m_snapshotSrcRect = w.m_snapshotSrcRect := by
  have h : compositorSource env (Frame.enter w) = .fallThrough
      ⟨w.m_snapshot, w.m_snapshotSrcRect, .null, getImageDSHM env, false, none,
        compositorCalls env ++ sharedMemoryCalls env⟩ := by
    rw [compositorSource_miss env _ hn, sharedMemorySource_miss env _ rfl hm,
      directSource_skipped env _ hw]
    simp [Frame.enter]
  refine ⟨h, ?_, ?_⟩
  · unfold captured; rw [h]; rfl
  · unfold captured; rw [h]; rfl

/-- A reported file that fails to load wipes the stored pair: `load` writes
into `m_snapshot` itself and line 212 overwrites the rectangle. -/
theorem failed_load_wipes_snapshot :
    compositorYields loadFailEnv = false
    ∧ (fetchSnapshot loadFailEnv storedWidget).widget = ⟨.null, ⟨0, 0, 0, 0⟩⟩ := by
  refine ⟨by decide, ?_⟩
  have e1 : loadFailEnv.hasComposite = true := rfl
  simp only [fetchSnapshot, e1, Bool.true_eq_false, if_false]
  rw [compositorSource_break loadFailEnv _ ⟨rfl, rfl, rfl⟩]
  have e2 : loadImage loadFailEnv.tmpFileImage = .null := rfl
  simp only [afterSources, e2, QImage.isNull, true_or, if_true, Frame.widget]
  norm_num [QRectF.ofQRect, QImage.rect, QImage.width, QImage.height]

/-- C11, at the failing input. On a Wayland display without compositor service
and without descriptor no source yields a bitmap, yet the null check of line
262 looks at the members, which still hold the pair of an earlier capture, and
lets the normalization run on it: the stored 100 x 50 snapshot is resampled to
101 x 50, the stored source rectangle is moved and resized, and `update()` is
called. Apart from that, a reported file that fails to load replaces the stored
pair by a null image and a null rectangle. -/
theorem stale_snapshot_renormalized :
    (waylandEnv.hasComposite = true
    ∧ compositorYields waylandEnv = false
    ∧ sharedMemoryYields waylandEnv = false
    ∧ directYields waylandEnv = false
    ∧ (fetchSnapshot waylandEnv storedWidget).widget
        = ⟨.image 101 50, ⟨564364400540461 / 562949953421312, 564364400540461 / 562949953421312, 199 / 2, 3465572247805005 / 70368744177664⟩⟩
    ∧ (fetchSnapshot waylandEnv storedWidget).widget ≠ storedWidget
    ∧ (fetchSnapshot waylandEnv storedWidget).trace
        = [.isKWinAvailable, .getImageDSHM false, .update])
    ∧ (compositorYields loadFailEnv = false
      ∧ (fetchSnapshot loadFailEnv storedWidget).widget = ⟨.null, ⟨0, 0, 0, 0⟩⟩) := by
  obtain ⟨c0, c1, c2⟩ := captured_of_skipped waylandEnv storedWidget (by decide) (by decide) rfl
  have hs : captureSucceeds waylandEnv storedWidget = true := by
    unfold captureSucceeds
    rw [c0]
    norm_num [storedWidget, QImage.isNull, QRectF.isNull]
  have hw : (captured waylandEnv storedWidget).m_snapshotSrcRect.width ≠ 0 := by
    rw [c2]
    norm_num [storedWidget]
  obtain ⟨hp, -, ht⟩ := fetchSnapshot_published waylandEnv storedWidget rfl hs hw
  have hv : (fetchSnapshot waylandEnv storedWidget).widget
      = ⟨.image 101 50, ⟨564364400540461 / 562949953421312, 564364400540461 / 562949953421312, 199 / 2, 3465572247805005 / 70368744177664⟩⟩ := by
    rw [hp, c1, c2]
    have k0 : round64 (282889423829805 / 562949953421312) = (282889423829805 / 562949953421312) :=
      round64_eq (282889423829805 / 562949953421312) (282889423829805 / 562949953421312) 4526230781276880 (-53) (by norm_num) (by norm_num [abs_of_pos])
        (by norm_num [abs_of_pos]) (by norm_num) (by norm_num)
    have k1 : round64 (564364400540461 / 562949953421312) = (564364400540461 / 562949953421312) :=
      round64_eq (564364400540461 / 562949953421312) (564364400540461 / 562949953421312) 4514915204323688 (-52) (by norm_num) (by norm_num [abs_of_pos])
        (by norm_num [abs_of_pos]) (by norm_num) (by norm_num)
    have k2 : round64 (200 / 199) = (282889423829805 / 281474976710656) :=
      round64_eq (200 / 199) (282889423829805 / 281474976710656) 4526230781276880 (-52) (by norm_num) (by norm_num [abs_of_pos])
        (by norm_num [abs_of_pos]) (by norm_num) (by norm_num)
    have k3 : round64 (3465572247805005 / 70368744177664) = (3465572247805005 / 70368744177664) :=
      round64_eq (3465572247805005 / 70368744177664) (3465572247805005 / 70368744177664) 6931144495610010 (-47) (by norm_num) (by norm_num [abs_of_pos])
        (by norm_num [abs_of_pos]) (by norm_num) (by norm_num)
    have k4 : round64 (9900 / 199) = (3500756619893837 / 70368744177664) :=
      round64_eq (9900 / 199) (3500756619893837 / 70368744177664) 7001513239787674 (-47) (by norm_num) (by norm_num [abs_of_pos])
        (by norm_num [abs_of_pos]) (by norm_num) (by norm_num)
    have k5 : round64 (7072235595745125 / 140737488355328) = (7072235595745125 / 140737488355328) :=
      round64_eq (7072235595745125 / 140737488355328) (7072235595745125 / 140737488355328) 7072235595745125 (-47) (by norm_num) (by norm_num [abs_of_pos])
        (by norm_num [abs_of_pos]) (by norm_num) (by norm_num)
    have k6 : round64 (7142604339922789 / 140737488355328) = (7142604339922789 / 140737488355328) :=
      round64_eq (7142604339922789 / 140737488355328) (7142604339922789 / 140737488355328) 7142604339922789 (-47) (by norm_num) (by norm_num [abs_of_pos])
        (by norm_num [abs_of_pos]) (by norm_num) (by norm_num)
    have k7 : round64 (199 / 2) = (199 / 2) :=
      round64_eq (199 / 2) (199 / 2) 7001690045677568 (-46) (by norm_num) (by norm_num [abs_of_pos])
        (by norm_num [abs_of_pos]) (by norm_num) (by norm_num)
    have k8 : round64 100 = 100 :=
      round64_eq 100 100 7036874417766400 (-46) (by norm_num) (by norm_num [abs_of_pos])
        (by norm_num [abs_of_pos]) (by norm_num) (by norm_num)
    have k9 : round64 (7072235595745125 / 70368744177664) = (7072235595745125 / 70368744177664) :=
      round64_eq (7072235595745125 / 70368744177664) (7072235595745125 / 70368744177664) 7072235595745125 (-46) (by norm_num) (by norm_num [abs_of_pos])
        (by norm_num [abs_of_pos]) (by norm_num) (by norm_num)
    have k10 : round64 (7107419967833957 / 70368744177664) = (7107419967833957 / 70368744177664) :=
      round64_eq (7107419967833957 / 70368744177664) (7107419967833957 / 70368744177664) 7107419967833957 (-46) (by norm_num) (by norm_num [abs_of_pos])
        (by norm_num [abs_of_pos]) (by norm_num) (by norm_num)
    have k11 : round64 (19900 / 99) = (7072414187553099 / 35184372088832) :=
      round64_eq (19900 / 99) (7072414187553099 / 35184372088832) 7072414187553099 (-45) (by norm_num) (by norm_num [abs_of_pos])
        (by norm_num [abs_of_pos]) (by norm_num) (by norm_num)
    have k12 : round64 4950 = 4950 :=
      round64_eq 4950 4950 5442582557491200 (-40) (by norm_num) (by norm_num [abs_of_pos])
        (by norm_num [abs_of_pos]) (by norm_num) (by norm_num)
    have k13 : round64 9950 = 9950 :=
      round64_eq 9950 9950 5470070348185600 (-39) (by norm_num) (by norm_num [abs_of_pos])
        (by norm_num [abs_of_pos]) (by norm_num) (by norm_num)
    norm_num [normalizeSrcRect_eq, normalizeSnapshot, targetSize, QSizeF.scaled, QRectF.size,
      QSizeF.mul, displayBudget, QImage.scaled, QImage.width, QImage.height, qRound, truncToInt,
      QRectF.left, QRectF.top, fadd, fsub, fmul, fdiv, storedWidget, waylandEnv, bareEnv,
      round64_zero, Int.floor_eq_iff, k0, k1, k2, k3, k4, k5, k6, k7, k8, k9, k10, k11, k12, k13]
  refine ⟨⟨rfl, by decide, by decide, by decide, hv, ?_, ?_⟩, failed_load_wipes_snapshot⟩
  · rw [hv]
    intro h
    have h2 := congrArg Widget.m_snapshot h
    simp [storedWidget] at h2
  · rw [ht]
    unfold captured
    rw [c0]
    decide

/-! ## The divisor of the scale factor -/

/-- An invocation that passes the null check with a source rectangle of width
zero divides by zero at line 270. -/
theorem fetchSnapshot_zero_width (env : Env) (w : Widget) (hc : env.hasComposite = true)
    (hs : captureSucceeds env w = true)
    (hw : (captured env w).m_snapshotSrcRect.width = 0) :
    (fetchSnapshot env w).dividedByZero = true := by
  unfold captureSucceeds at hs
  unfold captured at hw
  simp only [fetchSnapshot, hc, Bool.true_eq_false, if_false]
  cases hx : compositorSource env (Frame.enter w) with
  | returned f => simp [hx] at hs
  | fallThrough f =>
    simp only [hx, Bool.and_eq_true, Bool.not_eq_true'] at hs
    simp only [hx, Exit.frame] at hw
    simp [afterSources, hs.1, hs.2, scaleFactor, hw]

/-- C12, at the failing input. `QRectF::isNull()` holds only when width and
height are both zero. A descriptor whose rectangle has width 0 and height 80
passes the null check of line 262, and so do shadow extents whose left and
right add up to the image width: in both cases the source rectangle reaches
line 270 with width 0, the divisor of the scale factor, and the invocation
divides by zero. -/
theorem zero_width_passes_null_check :
    (sharedMemoryYields zeroWidthEnv = true
      ∧ (captured zeroWidthEnv emptyWidget).m_snapshot = .image 200 160
      ∧ (captured zeroWidthEnv emptyWidget).m_snapshotSrcRect = ⟨0, 0, 0, 80⟩
      ∧ captureSucceeds zeroWidthEnv emptyWidget = true
      ∧ (captured zeroWidthEnv emptyWidget).m_snapshotSrcRect.width = 0
      ∧ (fetchSnapshot zeroWidthEnv emptyWidget).dividedByZero = true)
    ∧ (directYields halfShadowEnv = true
      ∧ (captured halfShadowEnv emptyWidget).m_snapshot = .image 300 200
      ∧ (captured halfShadowEnv emptyWidget).m_snapshotSrcRect = ⟨150, 0, 0, 200⟩
      ∧ captureSucceeds halfShadowEnv emptyWidget = true
      ∧ (captured halfShadowEnv emptyWidget).m_snapshotSrcRect.width = 0
      ∧ (fetchSnapshot halfShadowEnv emptyWidget).dividedByZero = true) := by
  obtain ⟨a1, a2⟩ := captured_of_sharedMemory zeroWidthEnv emptyWidget
    ⟨7, 200, 160, 800, 4, ⟨0, 0, 0, 80⟩⟩ (by decide) rfl rfl
  obtain ⟨b1, b2⟩ := captured_of_direct halfShadowEnv emptyWidget ⟨300, 200, 1200⟩
    (by decide) (by decide) rfl rfl (by decide)
  have a3 : (captured zeroWidthEnv emptyWidget).m_snapshot = .image 200 160 := by
    rw [a1]; decide
  have a4 : (captured zeroWidthEnv emptyWidget).m_snapshotSrcRect = ⟨0, 0, 0, 80⟩ := by
    rw [a2]; norm_num [QRectF.ofQRect, toInt]
  have b3 : (captured halfShadowEnv emptyWidget).m_snapshot = .image 300 200 := by
    rw [b1]; decide
  have b4 : (captured halfShadowEnv emptyWidget).m_snapshotSrcRect = ⟨150, 0, 0, 200⟩ := by
    rw [b2]
    have : rectRemovedShadow true
        (QImage.create halfShadowEnv.ximageParamsOk
          (⟨300, 200, 1200⟩ : XImage).width (⟨300, 200, 1200⟩ : XImage).height)
        halfShadowEnv.gtkFrameExtents = ⟨150, 0, 0, 200⟩ := by decide
    rw [this]
    norm_num [QRectF.ofQRect]
  have a5 : captureSucceeds zeroWidthEnv emptyWidget = true := by
    have hx : compositorSource zeroWidthEnv (Frame.enter emptyWidget)
        = .fallThrough (captured zeroWidthEnv emptyWidget) := by
      unfold captured
      rw [compositorSource_miss zeroWidthEnv _ (by decide),
        sharedMemorySource_break zeroWidthEnv _ ⟨7, 200, 160, 800, 4, ⟨0, 0, 0, 80⟩⟩ rfl rfl]
      rfl
    unfold captureSucceeds
    rw [hx]
    simp only [a3, a4]
    norm_num [QImage.isNull, QRectF.isNull]
  have b5 : captureSucceeds halfShadowEnv emptyWidget = true := by
    have hx : compositorSource halfShadowEnv (Frame.enter emptyWidget)
        = .fallThrough (captured halfShadowEnv emptyWidget) := by
      unfold captured
      rw [compositorSource_miss halfShadowEnv _ (by decide),
        sharedMemorySource_miss halfShadowEnv _ rfl (by decide),
        directSource_image halfShadowEnv _ ⟨300, 200, 1200⟩ rfl rfl rfl (by decide)]
      rfl
    unfold captureSucceeds
    rw [hx]
    simp only [b3, b4]
    norm_num [QImage.isNull, QRectF.isNull]
  have a6 : (captured zeroWidthEnv emptyWidget).m_snapshotSrcRect.width = 0 := by rw [a4]
  have b6 : (captured halfShadowEnv emptyWidget).m_snapshotSrcRect.width = 0 := by rw [b4]
  exact ⟨⟨by decide, a3, a4, a5, a6, fetchSnapshot_zero_width _ _ rfl a5 a6⟩,
    ⟨by decide, b3, b4, b5, b6, fetchSnapshot_zero_width _ _ rfl b5 b6⟩⟩

end AppSnapshot
